import Mathlib

/-!
Shallow embedding of the `niv_tools` repository: a set of plugin tool classes
for a Frappe-based host framework.  Every host-ORM primitive
(`frappe.db.exists`, `frappe.get_meta`, `frappe.get_all`, `frappe.db.sql`,
`frappe.get_doc`, inserts, deletes, ...) is modelled as a field of an
environment record returning `Except String α`: a raised host exception is
`.error msg`.  Repository code translated here keeps the control flow of the
Python source; a Python `try/except` around a region becomes a `match` on the
`Except` value of that region.  Python's falsy `""`/`None` string values are
modelled as the empty string unless a key's absence is significant, in which
case `Option` is used.
-/

namespace NivTools

/-- A Python scalar value as produced by the dummy-value table of
`test_created_item` (strings, ints, and the float literal `1.0`, modelled as a
rational). -/
inductive PyVal where
  | vstr (s : String)
  | vint (n : Int)
  | vfloat (q : Rat)
  deriving DecidableEq, Repr

/-- Python's default `str.strip` whitespace set (ASCII). -/
def pyWhitespace (c : Char) : Bool :=
  c = ' ' || c = '\t' || c = '\n' || c = '\r' || c = '\x0b' || c = '\x0c'

/-- Python `s.strip()` (computable by kernel reduction, unlike
`String.trim`). -/
def pyStrip (s : String) : String :=
  ⟨((s.data.dropWhile pyWhitespace).reverse.dropWhile pyWhitespace).reverse⟩

/-- Split a character list on a separator character; like Python
`s.split(c)`, the empty string yields `[""]`. -/
def splitOnCharList (c : Char) : List Char → List (List Char)
  | [] => [[]]
  | ch :: rest =>
    match splitOnCharList c rest with
    | [] => [[]]
    | g :: gs => if ch = c then [] :: g :: gs else (ch :: g) :: gs

/-- Python `s.split(c)` for a one-character separator. -/
def pySplitChar (c : Char) (s : String) : List String :=
  (splitOnCharList c s.data).map (fun l => ⟨l⟩)

/-- Python `s.lower()` (ASCII case folding). -/
def pyLower (s : String) : String :=
  ⟨s.data.map Char.toLower⟩

/-- Python `s[:n]` (code-point slicing). -/
def pyTake (n : Nat) (s : String) : String :=
  ⟨s.data.take n⟩

/-- Substring test: Python's `needle in haystack` on strings. -/
def strContains (haystack needle : String) : Bool :=
  haystack.data.tails.any (fun t => needle.data.isPrefixOf t)

/-- Inversion of a successful `Except` bind. -/
theorem except_bind_ok {α β : Type} {x : Except String α} {f : α → Except String β}
    {b : β} (h : (x >>= f) = .ok b) : ∃ a, x = .ok a ∧ f a = .ok b := by
  cases x with
  | error e => simp [Bind.bind, Except.bind] at h
  | ok a => exact ⟨a, rfl, by simpa [Bind.bind, Except.bind] using h⟩


namespace Hooks

/-- The `assistant_tools` registration list declared in `niv_tools/hooks.py`
(lines 9-17): the tool class paths discovered by the framework hooks. -/
def assistant_tools : List String :=
  [ "niv_tools.tools.universal_search.UniversalSearch"
  , "niv_tools.tools.field_explorer.FieldExplorer"
  , "niv_tools.tools.test_created_item.TestCreatedItem"
  , "niv_tools.tools.monitor_errors.MonitorErrors"
  , "niv_tools.tools.rollback_changes.RollbackChanges"
  , "niv_tools.tools.introspect_system.IntrospectSystem"
  , "niv_tools.tools.map_relationships.MapRelationships" ]

end Hooks

namespace Install

/-- The `TOOL_PATHS` list of `niv_tools/install.py` (lines 11-21), used by
`after_install` to validate tool imports. -/
def TOOL_PATHS : List String :=
  [ "niv_tools.tools.universal_search.UniversalSearch"
  , "niv_tools.tools.field_explorer.FieldExplorer"
  , "niv_tools.tools.test_created_item.TestCreatedItem"
  , "niv_tools.tools.monitor_errors.MonitorErrors"
  , "niv_tools.tools.rollback_changes.RollbackChanges"
  , "niv_tools.tools.introspect_system.IntrospectSystem"
  , "niv_tools.tools.map_relationships.MapRelationships"
  , "niv_tools.tools.build_blueprint.BuildBlueprint"
  , "niv_tools.tools.verify_build.VerifyBuild" ]

end Install

/-- The tool classes actually defined in the repository: one class per file
under `src/niv_tools/tools/` (nine files, each defining exactly one
`BaseTool` subclass), listed by their import paths. -/
def toolClassesDefined : List String :=
  [ "niv_tools.tools.build_blueprint.BuildBlueprint"
  , "niv_tools.tools.field_explorer.FieldExplorer"
  , "niv_tools.tools.introspect_system.IntrospectSystem"
  , "niv_tools.tools.map_relationships.MapRelationships"
  , "niv_tools.tools.monitor_errors.MonitorErrors"
  , "niv_tools.tools.rollback_changes.RollbackChanges"
  , "niv_tools.tools.test_created_item.TestCreatedItem"
  , "niv_tools.tools.universal_search.UniversalSearch"
  , "niv_tools.tools.verify_build.VerifyBuild" ]

namespace TestCreatedItem

/-- A field as consumed by `TestCreatedItem._get_dummy_value`: only its
`fieldtype` and `options` attributes are read (`options` is `""` for a
Python `None`). -/
structure DummyField where
  fieldtype : String
  options : String
  deriving DecidableEq, Repr

/-- Host environment for the `Link` branch of `_get_dummy_value`:
`frappe.db.exists("DocType", linked)` and
`frappe.db.get_all(linked, limit=1, pluck="name")`. -/
structure TCEnv where
  dbExistsDocType : String → Except String Bool
  getAllNames : String → Except String (List String)

/-- `TestCreatedItem._get_dummy_value` (test_created_item.py lines 246-280). -/
def getDummyValue (env : TCEnv) (field : DummyField) : Option PyVal :=
  let ft := field.fieldtype
  if ft = "Data" ∨ ft = "Small Text" ∨ ft = "Text" ∨ ft = "Long Text" ∨
      ft = "Text Editor" then
    some (.vstr "__test__")
  else if ft = "Int" then
    some (.vint 1)
  else if ft = "Float" ∨ ft = "Currency" ∨ ft = "Percent" then
    some (.vfloat 1)
  else if ft = "Check" then
    some (.vint 0)
  else if ft = "Date" then
    some (.vstr "2025-01-01")
  else if ft = "Datetime" then
    some (.vstr "2025-01-01 00:00:00")
  else if ft = "Time" then
    some (.vstr "00:00:00")
  else if ft = "Select" then
    let options :=
      ((pySplitChar '\n' field.options).map pyStrip).filter (fun o => o ≠ "")
    match options with
    | o :: _ => some (.vstr o)
    | [] => some (.vstr "")
  else if ft = "Link" then
    -- try: ... except: pass; return None
    match (do
      let linked := field.options
      if linked ≠ "" then do
        let ex ← env.dbExistsDocType linked
        if ex then do
          let first ← env.getAllNames linked
          pure first.head?
        else
          pure none
      else
        pure none : Except String (Option String)) with
    | .ok (some n) => some (.vstr n)
    | _ => none
  else
    none

/-- The first non-blank, stripped line of a `Select` field's options, or `""`
(what the `Select` branch of `_get_dummy_value` returns). -/
def firstSelectOption (opts : String) : String :=
  match ((pySplitChar '\n' opts).map pyStrip).filter (fun o => o ≠ "") with
  | o :: _ => o
  | [] => ""

/-- The field types explicitly handled by `_get_dummy_value`. -/
def handledFieldtypes : List String :=
  [ "Data", "Small Text", "Text", "Long Text", "Text Editor", "Int",
    "Float", "Currency", "Percent", "Check", "Date", "Datetime", "Time",
    "Select", "Link" ]

/-- A trivial host environment (every lookup fails) for closed evaluations. -/
def tcEnvTriv : TCEnv :=
  { dbExistsDocType := fun _ => .error "no db"
  , getAllNames := fun _ => .error "no db" }

end TestCreatedItem

namespace MonitorErrors

/-- `MonitorErrors._suggest_fix` (monitor_errors.py lines 131-158): a pure
substring-dispatch over the lowercased error line. -/
def suggestFix (error_line : String) : String :=
  let l := pyLower error_line
  if strContains l "does not exist" then
    "A referenced document or DocType doesn\x27t exist. Check if it was deleted or renamed."
  else if strContains l "permission" || strContains l "not permitted" then
    "Permission issue. Check Role Permissions for the relevant DocType."
  else if strContains l "mandatory" || strContains l "required" then
    "A required field is missing. Check the form or script that creates this document."
  else if strContains l "duplicate" || strContains l "unique" then
    "Duplicate entry. A record with this value already exists. Check naming series or unique fields."
  else if strContains l "syntaxerror" then
    "Syntax error in a script. Check Client Scripts or Server Scripts for typos."
  else if strContains l "importerror" || strContains l "modulenotfounderror" then
    "Missing module/import. A required Python package may not be installed."
  else if strContains l "typeerror" then
    "Type mismatch. A function received wrong argument types. Check API calls and field types."
  else if strContains l "attributeerror" then
    "Accessing a non-existent attribute. Check if the field/method exists on the DocType."
  else if strContains l "timeout" || strContains l "timed out" then
    "Operation timed out. Could be a slow query, external API, or heavy computation."
  else if strContains l "linkvalidation" then
    "Link validation failed. The linked document doesn\x27t exist or is not permitted."
  else if strContains l "valueerror" then
    "Invalid value. Check data formats (dates, numbers) and select field options."
  else
    "Review the full traceback in Error Log for details."

/-- The twelve fixed strings `_suggest_fix` can return. -/
def suggestionTable : List String :=
  [ "A referenced document or DocType doesn\x27t exist. Check if it was deleted or renamed."
  , "Permission issue. Check Role Permissions for the relevant DocType."
  , "A required field is missing. Check the form or script that creates this document."
  , "Duplicate entry. A record with this value already exists. Check naming series or unique fields."
  , "Syntax error in a script. Check Client Scripts or Server Scripts for typos."
  , "Missing module/import. A required Python package may not be installed."
  , "Type mismatch. A function received wrong argument types. Check API calls and field types."
  , "Accessing a non-existent attribute. Check if the field/method exists on the DocType."
  , "Operation timed out. Could be a slow query, external API, or heavy computation."
  , "Link validation failed. The linked document doesn\x27t exist or is not permitted."
  , "Invalid value. Check data formats (dates, numbers) and select field options."
  , "Review the full traceback in Error Log for details." ]

end MonitorErrors

namespace MapRelationships

/-- A row of a DocType's `meta.fields`, with the attributes
`map_relationships.py` reads (`""` models a Python `None`/empty value). -/
structure DocField where
  fieldname : String
  fieldtype : String
  label : String
  options : String
  reqd : Bool
  fetch_from : String
  read_only : Bool
  deriving DecidableEq, Repr

/-- The slice of `frappe.get_meta(doctype)` that `map_relationships.py`
reads. -/
structure Meta where
  module : String
  is_submittable : Bool
  istable : Bool
  issingle : Bool
  is_tree : Bool
  autoname : String
  naming_rule : String
  allow_auto_repeat : Bool
  fields : List DocField
  deriving DecidableEq, Repr

/-- A row of the raw SQL queries over `tabDocField` / `tabCustom Field`
(columns `parent`/`dt`, `fieldname`, `label`, `reqd`). -/
structure SqlLinkRow where
  parent : String
  fieldname : String
  label : String
  reqd : Bool
  deriving DecidableEq, Repr

/-- The `frappe.db.get_value("Workflow", ...)` row. -/
structure WorkflowRow where
  name : String
  workflow_state_field : String
  deriving DecidableEq, Repr

/-- A `Workflow Document State` row (fields `state`, `doc_status`,
`allow_edit`). -/
structure WfStateRow where
  state : String
  doc_status : String
  allow_edit : String
  deriving DecidableEq, Repr

/-- A `Workflow Transition` row. -/
structure WfTransitionRow where
  state : String
  action : String
  next_state : String
  allowed : String
  deriving DecidableEq, Repr

/-- A `Notification` row (fields `name`, `event`, `channel`). -/
structure NotificationRow where
  name : String
  event : String
  channel : String
  deriving DecidableEq, Repr

/-- A `Server Script` row (fields `name`, `event_frequency`). -/
structure ServerScriptRow where
  name : String
  event_frequency : String
  deriving DecidableEq, Repr

/-- A `Print Format` row (fields `name`, `standard`). -/
structure PrintFormatRow where
  name : String
  standard : String
  deriving DecidableEq, Repr

/-- Host-ORM environment for `map_relationships.py`.  Each field is one of
the distinct host calls the tool makes; a raised exception is `.error`. -/
structure MREnv where
  dbExistsDocType : String → Except String Bool
  sqlDoctypeLike : String → Except String (List String)
  getMeta : String → Except String Meta
  sqlLinkFields : String → Except String (List SqlLinkRow)
  sqlCustomLinkFields : String → Except String (List SqlLinkRow)
  getWorkflow : String → Except String (Option WorkflowRow)
  getWorkflowStates : String → Except String (List WfStateRow)
  getWorkflowTransitions : String → Except String (List WfTransitionRow)
  getNotifications : String → Except String (List NotificationRow)
  getServerScripts : String → Except String (List ServerScriptRow)
  getPrintFormats : String → Except String (List PrintFormatRow)
  dbCount : String → Except String Int

/-- An entry of the `links_to` result list (a `Link` or `Dynamic Link`
field); `fetch_from = none` models the absent dict key. -/
structure LinkInfo where
  fieldname : String
  label : String
  links_to : String
  mandatory : Bool
  fetch_from : Option String
  deriving DecidableEq, Repr

/-- An entry of a child table's `child_links` list. -/
structure ChildLink where
  fieldname : String
  links_to : String
  deriving DecidableEq, Repr

/-- An entry of the `child_tables` result list. -/
structure ChildInfo where
  fieldname : String
  child_doctype : String
  field_count : Nat
  child_links : Option (List ChildLink)
  deriving DecidableEq, Repr

/-- An entry of the `links_from` result list; `custom = true` models the
presence of the `"custom": True` key on Custom Field rows. -/
structure FromLink where
  from_doctype : String
  fieldname : String
  label : String
  mandatory : Bool
  custom : Bool
  deriving DecidableEq, Repr

/-- The `workflow` result sub-dictionary. -/
structure WorkflowInfo where
  name : String
  state_field : String
  states : List String
  transitions : List String
  deriving DecidableEq, Repr

/-- An entry of the `auto_fetch_fields` result list. -/
structure FetchField where
  fieldname : String
  fetch_from : String
  read_only : Bool
  deriving DecidableEq, Repr

/-- The `submittable_flow` result sub-dictionary. -/
structure SubmittableFlow where
  can_amend : Bool
  statuses : List String
  deriving DecidableEq, Repr

/-- The keys of a `_map_doctype` result dictionary other than
`linked_doctypes_detail` and `summary`; an `Option` field of value `none`
models an absent key. -/
structure MapBase where
  doctype : String
  module : String
  is_submittable : Bool
  is_child : Bool
  is_single : Bool
  is_tree : Bool
  naming : Option String
  naming_rule : Option String
  links_to : Option (List LinkInfo)
  child_tables : Option (List ChildInfo)
  links_from : Option (List FromLink)
  links_from_count : Option Nat
  workflow : Option WorkflowInfo
  auto_fetch_fields : Option (List FetchField)
  submittable_flow : Option SubmittableFlow
  notifications : Option (List NotificationRow)
  server_scripts : Option (List ServerScriptRow)
  print_formats : Option (List PrintFormatRow)
  record_count : Option Int
  deriving DecidableEq, Repr, Inhabited

/-- A `_map_doctype` result: either the two-key circular-reference
dictionary, or a full mapping with its optional `linked_doctypes_detail`
and its `summary` string. -/
inductive MapNode where
  | circular (doctype : String)
  | mapped (base : MapBase) (linked_doctypes_detail : Option (List (String × MapNode)))
      (summary : String)

/-- The `standard_link_fields` set skipped unless `include_standard`. -/
def standard_link_fields : List String :=
  ["owner", "modified_by", "company", "amended_from", "parent", "parenttype", "parentfield"]

/-- Section 1 of `_map_doctype`: the `links_to` list built from the
DocType's own `Link` / `Dynamic Link` fields. -/
def linksToOf (include_standard : Bool) (meta : Meta) : List LinkInfo :=
  meta.fields.filterMap fun f =>
    if f.fieldtype = "Link" ∧ f.options ≠ "" then
      if ¬ include_standard ∧ f.fieldname ∈ standard_link_fields then none
      else
        some { fieldname := f.fieldname
             , label := if f.label = "" then f.fieldname else f.label
             , links_to := f.options
             , mandatory := f.reqd
             , fetch_from := if f.fetch_from ≠ "" then some f.fetch_from else none }
    else if f.fieldtype = "Dynamic Link" ∧ f.options ≠ "" then
      some { fieldname := f.fieldname
           , label := if f.label = "" then f.fieldname else f.label
           , links_to := "DYNAMIC (via " ++ f.options ++ ")"
           , mandatory := f.reqd
           , fetch_from := none }
    else none

/-- Section 2 of `_map_doctype`: child tables.  The nested
`frappe.get_meta(f.options)` call is not wrapped in a `try`, so its
exception propagates (hence `Except`). -/
def childTablesOf (env : MREnv) (meta : Meta) : Except String (List ChildInfo) :=
  meta.fields.foldlM (fun acc f =>
    if f.fieldtype = "Table" ∧ f.options ≠ "" then do
      let child_meta ← env.getMeta f.options
      let child_links := child_meta.fields.filterMap fun cf =>
        if cf.fieldtype = "Link" ∧ cf.options ≠ "" then
          some ({ fieldname := cf.fieldname, links_to := cf.options } : ChildLink)
        else none
      let field_count := (child_meta.fields.filter fun x =>
        ¬ (x.fieldtype = "Section Break" ∨ x.fieldtype = "Column Break" ∨
           x.fieldtype = "Tab Break")).length
      pure (acc ++ [{ fieldname := f.fieldname
                    , child_doctype := f.options
                    , field_count := field_count
                    , child_links := if child_links ≠ [] then some child_links else none }])
    else
      pure acc) []

/-- Section 3 of `_map_doctype` (the `try` block for reverse links): if the
first SQL query raises, `links_from` stays `[]`; if the second raises after
the first succeeded, the entries appended so far are kept. -/
def linksFromOf (env : MREnv) (dt : String) : List FromLink :=
  match env.sqlLinkFields dt with
  | .error _ => []
  | .ok rows =>
    let l1 := rows.filterMap fun lf =>
      if lf.parent.startsWith "__" then none
      else
        some { from_doctype := lf.parent
             , fieldname := lf.fieldname
             , label := if lf.label = "" then lf.fieldname else lf.label
             , mandatory := lf.reqd
             , custom := false }
    match env.sqlCustomLinkFields dt with
    | .error _ => l1
    | .ok crows =>
      l1 ++ crows.map fun cl =>
        { from_doctype := cl.parent
        , fieldname := cl.fieldname
        , label := if cl.label = "" then cl.fieldname else cl.label
        , mandatory := cl.reqd
        , custom := true }

/-- Section 4 of `_map_doctype` (the workflow `try` block): any raise inside
leaves the `workflow` key unset. -/
def workflowOf (env : MREnv) (dt : String) : Option WorkflowInfo :=
  match (do
    let wf ← env.getWorkflow dt
    match wf with
    | none => pure none
    | some w => do
        let states ← env.getWorkflowStates w.name
        let transitions ← env.getWorkflowTransitions w.name
        pure (some { name := w.name
                   , state_field := w.workflow_state_field
                   , states := states.map (·.state)
                   , transitions := transitions.map fun t =>
                       t.state ++ " --[" ++ t.action ++ "]--> " ++ t.next_state ++
                         " (by " ++ t.allowed ++ ")" }) : Except String (Option WorkflowInfo)) with
  | .ok r => r
  | .error _ => none

/-- Section 5 of `_map_doctype`: `fetch_from` fields. -/
def fetchFieldsOf (meta : Meta) : List FetchField :=
  meta.fields.filterMap fun f =>
    if f.fetch_from ≠ "" then
      some { fieldname := f.fieldname, fetch_from := f.fetch_from, read_only := f.read_only }
    else none

/-- Section 6 of `_map_doctype`: the `submittable_flow` key. -/
def submittableFlowOf (meta : Meta) : Option SubmittableFlow :=
  if meta.is_submittable then
    some { can_amend := meta.allow_auto_repeat ||
             meta.fields.any (fun f => f.fieldname = "amended_from")
         , statuses := ["Draft", "Submitted", "Cancelled"] }
  else none

/-- Section 7 of `_map_doctype` (notifications `try` block). -/
def notificationsOf (env : MREnv) (dt : String) : Option (List NotificationRow) :=
  match env.getNotifications dt with
  | .ok notifs => if notifs ≠ [] then some notifs else none
  | .error _ => none

/-- Section 8 of `_map_doctype` (server scripts `try` block). -/
def serverScriptsOf (env : MREnv) (dt : String) : Option (List ServerScriptRow) :=
  match env.getServerScripts dt with
  | .ok scripts => if scripts ≠ [] then some scripts else none
  | .error _ => none

/-- Section 9 of `_map_doctype` (print formats `try` block). -/
def printFormatsOf (env : MREnv) (dt : String) : Option (List PrintFormatRow) :=
  match env.getPrintFormats dt with
  | .ok pf => if pf ≠ [] then some pf else none
  | .error _ => none

/-- Section 10 of `_map_doctype` (record count `try` block). -/
def recordCountOf (env : MREnv) (meta : Meta) (dt : String) : Option Int :=
  if ¬ meta.issingle ∧ ¬ meta.istable then
    match env.dbCount dt with
    | .ok c => some c
    | .error _ => none
  else none

/-- The final `summary` string of `_map_doctype`. -/
def summaryOf (dt : String) (links_to : List LinkInfo) (links_from : List FromLink)
    (child_tables : List ChildInfo) (has_workflow : Bool) : String :=
  let parts :=
    (if links_to ≠ [] then ["links to " ++ toString links_to.length ++ " DocTypes"] else []) ++
    (if links_from ≠ [] then [toString links_from.length ++ " DocTypes link to it"] else []) ++
    (if child_tables ≠ [] then [toString child_tables.length ++ " child tables"] else []) ++
    (if has_workflow then ["has active workflow"] else [])
  dt ++ ": " ++ (if parts = [] then "standalone DocType" else String.intercalate ", " parts)

/-- Everything `_map_doctype` computes before the deeper-mapping section:
the base result dictionary plus the raw lists the deeper loop and the
summary read. -/
structure CoreOut where
  base : MapBase
  links_to : List LinkInfo
  links_from : List FromLink
  child_tables : List ChildInfo
  has_workflow : Bool

/-- The result-dictionary content `_map_doctype` assembles from a fetched
`meta` and already-computed child tables (sections 1 and 3-10). -/
def coreMk (env : MREnv) (include_standard : Bool) (dt : String) (meta : Meta)
    (child_tables : List ChildInfo) : CoreOut :=
  let links_to := linksToOf include_standard meta
  let links_from := linksFromOf env dt
  let fetch_fields := fetchFieldsOf meta
  { base :=
      { doctype := dt
      , module := meta.module
      , is_submittable := meta.is_submittable
      , is_child := meta.istable
      , is_single := meta.issingle
      , is_tree := meta.is_tree
      , naming := if meta.autoname ≠ "" then some meta.autoname else none
      , naming_rule := if meta.naming_rule ≠ "" then some meta.naming_rule else none
      , links_to := if links_to ≠ [] then some links_to else none
      , child_tables := if child_tables ≠ [] then some child_tables else none
      , links_from := if links_from ≠ [] then some links_from else none
      , links_from_count := if links_from ≠ [] then some links_from.length else none
      , workflow := workflowOf env dt
      , auto_fetch_fields := if fetch_fields ≠ [] then some fetch_fields else none
      , submittable_flow := submittableFlowOf meta
      , notifications := notificationsOf env dt
      , server_scripts := serverScriptsOf env dt
      , print_formats := printFormatsOf env dt
      , record_count := recordCountOf env meta dt }
  , links_to := links_to
  , links_from := links_from
  , child_tables := child_tables
  , has_workflow := (workflowOf env dt).isSome }

/-- Sections 1-10 of `_map_doctype` for one DocType (everything except the
`visited` check, the deeper mapping and the summary).  Fails exactly when
`frappe.get_meta` fails (top-level or for a child table). -/
def mapCore (env : MREnv) (include_standard : Bool) (dt : String) :
    Except String CoreOut := do
  let meta ← env.getMeta dt
  let child_tables ← childTablesOf env meta
  pure (coreMk env include_standard dt meta child_tables)

/-- The deeper-mapping loop of `_map_doctype` (lines 293-301): iterate the
first five `links_to` entries, recursing (via `f`) on each non-dynamic,
non-visited target and threading the visited set through. -/
def mapDeeper (f : String → List String → Except String (MapNode × List String)) :
    List LinkInfo → List String → Except String (List (String × MapNode) × List String)
  | [], visited => .ok ([], visited)
  | link :: rest, visited =>
    let target := link.links_to
    if target ≠ "" ∧ ¬ target.startsWith "DYNAMIC" ∧ target ∉ visited then do
      let (node, v1) ← f target visited
      let (tail, v2) ← mapDeeper f rest v1
      pure ((target, node) :: tail, v2)
    else
      mapDeeper f rest visited

/-- The guarded deeper-mapping section of `_map_doctype` (`if depth > 1 and
links_to:`): `recurse = none` models `depth ≤ 1` (no deeper section),
`recurse = some f` models `depth > 1` with `f` standing for `_map_doctype`
at `depth - 1`.  Returns the optional `linked_doctypes_detail` value and
the updated visited list. -/
def deeperOf
    (recurse : Option (String → List String → Except String (MapNode × List String)))
    (links_to : List LinkInfo) (visited1 : List String) :
    Except String (Option (List (String × MapNode)) × List String) :=
  match recurse with
  | some f =>
    if links_to ≠ [] then
      match mapDeeper f (links_to.take 5) visited1 with
      | .error e => .error e
      | .ok (d, v) => .ok (if d.isEmpty then none else some d, v)
    else .ok (none, visited1)
  | none => .ok (none, visited1)

/-- One `_map_doctype` invocation, parameterised by the recursive call used
for deeper mapping (see `deeperOf`).  The `visited` set is a list in
insertion order (the only operations the source performs on it are
membership and `add`). -/
def mapStep (env : MREnv) (include_standard : Bool)
    (recurse : Option (String → List String → Except String (MapNode × List String)))
    (dt : String) (visited : List String) : Except String (MapNode × List String) :=
  if dt ∈ visited then
    .ok (.circular dt, visited)
  else
    match mapCore env include_standard dt with
    | .error e => .error e
    | .ok core =>
      match deeperOf recurse core.links_to (visited ++ [dt]) with
      | .error e => .error e
      | .ok (deeper, visited2) =>
        .ok (.mapped core.base deeper
          (summaryOf dt core.links_to core.links_from core.child_tables core.has_workflow),
          visited2)

/-- `MapRelationships._map_doctype`, with the integer `depth` replaced by the
fuel `depth.toNat`: the source reads `depth` only in the guard `depth > 1`
and the decrement `depth - 1`, so an integer depth `d` behaves exactly like
the fuel `d.toNat` (`d > 1 ↔ d.toNat ≥ 2`, and for `d > 1` the callee depth
`d - 1` corresponds to fuel `d.toNat - 1`). -/
def mapDoctype (env : MREnv) (include_standard : Bool) :
    Nat → String → List String → Except String (MapNode × List String)
  | 0 => mapStep env include_standard none
  | 1 => mapStep env include_standard none
  | depth + 2 => mapStep env include_standard (some (mapDoctype env include_standard (depth + 1)))

/-- The argument object of `map_relationships` (`doctype` required, `depth`
default 1, `include_standard` default false are supplied by the caller). -/
structure MRArgs where
  doctype : String
  depth : Int
  include_standard : Bool

/-- `execute`'s return value: an error dictionary or a mapping result. -/
inductive MROut where
  | errDict (msg : String)
  | node (n : MapNode)

/-- `MapRelationships.execute` (map_relationships.py lines 49-69).  The
`frappe.db.exists` / SQL / `_map_doctype` calls are not wrapped in any
`try`, so a host exception (`.error`) propagates to the caller. -/
def executeMR (env : MREnv) (args : MRArgs) : Except String MROut := do
  let doctype := pyStrip args.doctype
  let depth : Int := min args.depth 3
  if doctype = "" then
    pure (.errDict "doctype is required")
  else do
    let ex ← env.dbExistsDocType doctype
    if ¬ ex then do
      let found ← env.sqlDoctypeLike doctype
      if found ≠ [] then
        pure (.errDict ("DocType \x27" ++ doctype ++ "\x27 not found. Did you mean: " ++
          String.intercalate ", " found))
      else
        pure (.errDict ("DocType \x27" ++ doctype ++ "\x27 not found"))
    else do
      let (node, _) ← mapDoctype env args.include_standard depth.toNat doctype []
      pure (.node node)

mutual

/-- The pre-order listing of the DocTypes fully mapped in a result tree
(circular-reference notes list nothing). -/
def dfsPreorder : MapNode → List String
  | .circular _ => []
  | .mapped base none _ => [base.doctype]
  | .mapped base (some l) _ => base.doctype :: dfsPreorderList l

/-- Pre-order listing over a `linked_doctypes_detail` list. -/
def dfsPreorderList : List (String × MapNode) → List String
  | [] => []
  | p :: rest => dfsPreorder p.2 ++ dfsPreorderList rest

end

mutual

/-- The nesting depth of `linked_doctypes_detail` below a node: the length
of the longest link chain followed from it. -/
def chainDepth : MapNode → Nat
  | .circular _ => 0
  | .mapped _ none _ => 0
  | .mapped _ (some l) _ => 1 + chainDepthList l

/-- Maximum `chainDepth` over a detail list. -/
def chainDepthList : List (String × MapNode) → Nat
  | [] => 0
  | p :: rest => max (chainDepth p.2) (chainDepthList rest)

end

mutual

/-- Every `linked_doctypes_detail` list in the tree has at most `k`
entries. -/
def detailBounded (k : Nat) : MapNode → Bool
  | .circular _ => true
  | .mapped _ none _ => true
  | .mapped _ (some l) _ => decide (l.length ≤ k) && detailBoundedList k l

/-- `detailBounded` over a detail list. -/
def detailBoundedList (k : Nat) : List (String × MapNode) → Bool
  | [] => true
  | p :: rest => detailBounded k p.2 && detailBoundedList k rest

end

/-- A `Link` `DocField` named `fn` targeting `target` (all other attributes
empty/false), for concrete test graphs. -/
def mkLinkField (fn target : String) : DocField :=
  { fieldname := fn, fieldtype := "Link", label := "", options := target
  , reqd := false, fetch_from := "", read_only := false }

/-- A minimal `Meta` with the given fields, for concrete test graphs. -/
def mkMeta (fields : List DocField) : Meta :=
  { module := "M", is_submittable := false, istable := false, issingle := false
  , is_tree := false, autoname := "", naming_rule := "", allow_auto_repeat := false
  , fields := fields }

/-- A host environment whose auxiliary lookups all succeed with empty
results and whose metadata lookup fails; concrete environments override
`getMeta`. -/
def mrEnvBase : MREnv :=
  { dbExistsDocType := fun _ => .ok true
  , sqlDoctypeLike := fun _ => .ok []
  , getMeta := fun _ => .error "unknown doctype"
  , sqlLinkFields := fun _ => .ok []
  , sqlCustomLinkFields := fun _ => .ok []
  , getWorkflow := fun _ => .ok none
  , getWorkflowStates := fun _ => .ok []
  , getWorkflowTransitions := fun _ => .ok []
  , getNotifications := fun _ => .ok []
  , getServerScripts := fun _ => .ok []
  , getPrintFormats := fun _ => .ok []
  , dbCount := fun _ => .ok 0 }

/-- Concrete metadata graph: `A` links to `B` and `C`; `B` links to `D`;
`C` and `D` have no links. -/
def envDiamond : MREnv :=
  { mrEnvBase with getMeta := fun dt =>
      if dt = "A" then .ok (mkMeta [mkLinkField "b" "B", mkLinkField "c" "C"])
      else if dt = "B" then .ok (mkMeta [mkLinkField "d" "D"])
      else if dt = "C" then .ok (mkMeta [])
      else if dt = "D" then .ok (mkMeta [])
      else (.error "unknown doctype") }

example : Except.map Prod.snd (mapDoctype envDiamond false 3 "A" []) =
    .ok ["A", "B", "D", "C"] := by rfl

example : Except.map (fun p => dfsPreorder p.1) (mapDoctype envDiamond false 3 "A" []) =
    .ok ["A", "B", "D", "C"] := by rfl

example : Except.map (fun p => chainDepth p.1) (mapDoctype envDiamond false 3 "A" []) =
    .ok 2 := by rfl

/-- `f` grows the visited list by exactly the pre-order of the node it
returns. -/
def Grows (f : String → List String → Except String (MapNode × List String)) : Prop :=
  ∀ dt v node v', f dt v = .ok (node, v') → v' = v ++ dfsPreorder node

/-- `mapDeeper` threads the visited list: on success it has grown by the
pre-order of the produced detail list. -/
theorem mapDeeper_growth {f} (hf : Grows f) :
    ∀ (ls : List LinkInfo) (v : List String) d v',
      mapDeeper f ls v = .ok (d, v') → v' = v ++ dfsPreorderList d := by
  intro ls
  induction ls with
  | nil =>
    intro v d v' h
    simp only [mapDeeper] at h
    cases h
    simp [dfsPreorderList]
  | cons l rest ih =>
    intro v d v' h
    simp only [mapDeeper] at h
    split at h
    · obtain ⟨⟨node, v1⟩, h1, h2⟩ := except_bind_ok h
      obtain ⟨⟨tail, v2⟩, h3, h4⟩ := except_bind_ok h2
      simp only [Pure.pure, Except.pure, Except.ok.injEq, Prod.mk.injEq] at h4
      obtain ⟨rfl, rfl⟩ := h4
      have hv1 := hf _ _ _ _ h1
      have hv2 := ih _ _ _ h3
      subst hv1 hv2
      simp [dfsPreorderList, dfsPreorderList]
    · have := ih _ _ _ h
      exact this

/-- `mapCore` stamps the requested DocType into the result. -/
theorem mapCore_doctype {env incl dt core} (h : mapCore env incl dt = .ok core) :
    core.base.doctype = dt := by
  unfold mapCore at h
  obtain ⟨meta, hm, h⟩ := except_bind_ok h
  obtain ⟨cts, hc, h⟩ := except_bind_ok h
  simp only [Pure.pure, Except.pure, Except.ok.injEq] at h
  subst h
  rfl

/-- The pre-order contributed by an optional `linked_doctypes_detail`. -/
def detailPreorder : Option (List (String × MapNode)) → List String
  | none => []
  | some d => dfsPreorderList d

theorem dfsPreorder_mapped (b : MapBase) (dp : Option (List (String × MapNode)))
    (s : String) : dfsPreorder (.mapped b dp s) = b.doctype :: detailPreorder dp := by
  cases dp <;> rfl

/-- `deeperOf` grows the visited list by the detail pre-order, provided the
recursive call grows it by node pre-orders. -/
theorem deeperOf_growth {recurse} (hrec : ∀ f, recurse = some f → Grows f) :
    ∀ links v1 deeper v2, deeperOf recurse links v1 = .ok (deeper, v2) →
      v2 = v1 ++ detailPreorder deeper := by
  intro links v1 deeper v2 h
  cases recurse with
  | none =>
    simp only [deeperOf, Except.ok.injEq, Prod.mk.injEq] at h
    obtain ⟨rfl, rfl⟩ := h
    simp [detailPreorder]
  | some f =>
    simp only [deeperOf] at h
    by_cases hl : links ≠ []
    · rw [if_pos hl] at h
      cases hm : mapDeeper f (links.take 5) v1 with
      | error e => simp [hm] at h
      | ok p =>
        obtain ⟨d, v⟩ := p
        simp only [hm] at h
        simp only [Except.ok.injEq, Prod.mk.injEq] at h
        obtain ⟨rfl, rfl⟩ := h
        have := mapDeeper_growth (hrec f rfl) _ _ _ _ hm
        subst this
        cases d with
        | nil => simp [detailPreorder, dfsPreorderList, List.isEmpty]
        | cons p rest => simp [detailPreorder, List.isEmpty]
    · rw [if_neg hl] at h
      simp only [Except.ok.injEq, Prod.mk.injEq] at h
      obtain ⟨rfl, rfl⟩ := h
      simp [detailPreorder]

/-- `mapStep` grows the visited list by the pre-order of its node, provided
the recursive call does. -/
theorem mapStep_growth {env incl recurse} (hrec : ∀ f, recurse = some f → Grows f) :
    ∀ dt v node v', mapStep env incl recurse dt v = .ok (node, v') →
      v' = v ++ dfsPreorder node := by
  intro dt v node v' h
  unfold mapStep at h
  split at h
  · cases h
    simp [dfsPreorder]
  · cases hc : mapCore env incl dt with
    | error e => simp [hc] at h
    | ok core =>
      simp only [hc] at h
      have hdt := mapCore_doctype hc
      cases hd : deeperOf recurse core.links_to (v ++ [dt]) with
      | error e => simp [hd] at h
      | ok p =>
        obtain ⟨deeper, visited2⟩ := p
        simp only [hd] at h
        simp only [Except.ok.injEq, Prod.mk.injEq] at h
        obtain ⟨rfl, rfl⟩ := h
        have := deeperOf_growth hrec _ _ _ _ hd
        subst this
        simp [dfsPreorder_mapped, hdt]

/-- `_map_doctype` grows the visited set by exactly the pre-order listing of
the DocTypes it fully maps. -/
theorem mapDoctype_growth : ∀ (n : Nat) (env : MREnv) (incl : Bool) dt v node v',
    mapDoctype env incl n dt v = .ok (node, v') → v' = v ++ dfsPreorder node := by
  intro n
  induction n using Nat.strong_induction_on with
  | _ n ih =>
    match n with
    | 0 =>
      intro env incl dt v node v' h
      exact mapStep_growth (by intro f hf; cases hf) dt v node v' h
    | 1 =>
      intro env incl dt v node v' h
      exact mapStep_growth (by intro f hf; cases hf) dt v node v' h
    | (m + 2) =>
      intro env incl dt v node v' h
      have hrec : ∀ f, (some (mapDoctype env incl (m + 1)) : Option _) = some f → Grows f := by
        intro f hf
        cases hf
        intro dt2 v2 node2 v2' h2
        exact ih (m + 1) (by omega) env incl dt2 v2 node2 v2' h2
      exact mapStep_growth hrec dt v node v' h

/-- `mapDeeper` preserves `Nodup` of the visited list, provided the
recursive call does. -/
theorem mapDeeper_nodup {f}
    (hf : ∀ dt v node v', f dt v = .ok (node, v') → v.Nodup → v'.Nodup) :
    ∀ (ls : List LinkInfo) (v : List String) d v',
      mapDeeper f ls v = .ok (d, v') → v.Nodup → v'.Nodup := by
  intro ls
  induction ls with
  | nil =>
    intro v d v' h hv
    simp only [mapDeeper] at h
    cases h
    exact hv
  | cons l rest ih =>
    intro v d v' h hv
    simp only [mapDeeper] at h
    split at h
    · obtain ⟨⟨node, v1⟩, h1, h2⟩ := except_bind_ok h
      obtain ⟨⟨tail, v2⟩, h3, h4⟩ := except_bind_ok h2
      simp only [Pure.pure, Except.pure, Except.ok.injEq, Prod.mk.injEq] at h4
      obtain ⟨rfl, rfl⟩ := h4
      exact ih _ _ _ h3 (hf _ _ _ _ h1 hv)
    · exact ih _ _ _ h hv

/-- `deeperOf` preserves `Nodup` of the visited list. -/
theorem deeperOf_nodup {recurse}
    (hrec : ∀ f, recurse = some f →
      ∀ dt v node v', f dt v = .ok (node, v') → v.Nodup → v'.Nodup) :
    ∀ links v1 deeper v2, deeperOf recurse links v1 = .ok (deeper, v2) →
      v1.Nodup → v2.Nodup := by
  intro links v1 deeper v2 h hv
  cases recurse with
  | none =>
    simp only [deeperOf, Except.ok.injEq, Prod.mk.injEq] at h
    obtain ⟨rfl, rfl⟩ := h
    exact hv
  | some f =>
    simp only [deeperOf] at h
    by_cases hl : links ≠ []
    · rw [if_pos hl] at h
      cases hm : mapDeeper f (links.take 5) v1 with
      | error e => simp [hm] at h
      | ok p =>
        obtain ⟨d, v⟩ := p
        simp only [hm] at h
        simp only [Except.ok.injEq, Prod.mk.injEq] at h
        obtain ⟨rfl, rfl⟩ := h
        exact mapDeeper_nodup (hrec f rfl) _ _ _ _ hm hv
    · rw [if_neg hl] at h
      simp only [Except.ok.injEq, Prod.mk.injEq] at h
      obtain ⟨rfl, rfl⟩ := h
      exact hv

/-- `mapStep` preserves `Nodup` of the visited list. -/
theorem mapStep_nodup {env incl recurse}
    (hrec : ∀ f, recurse = some f →
      ∀ dt v node v', f dt v = .ok (node, v') → v.Nodup → v'.Nodup) :
    ∀ dt v node v', mapStep env incl recurse dt v = .ok (node, v') →
      v.Nodup → v'.Nodup := by
  intro dt v node v' h hv
  unfold mapStep at h
  split at h
  · cases h
    exact hv
  · rename_i hmem
    have hv1 : (v ++ [dt]).Nodup := by
      simp [List.nodup_append, hv, hmem]
    cases hc : mapCore env incl dt with
    | error e => simp [hc] at h
    | ok core =>
      simp only [hc] at h
      cases hd : deeperOf recurse core.links_to (v ++ [dt]) with
      | error e => simp [hd] at h
      | ok p =>
        obtain ⟨deeper, visited2⟩ := p
        simp only [hd] at h
        simp only [Except.ok.injEq, Prod.mk.injEq] at h
        obtain ⟨rfl, rfl⟩ := h
        exact deeperOf_nodup hrec _ _ _ _ hd hv1

/-- `_map_doctype` preserves `Nodup` of the visited set. -/
theorem mapDoctype_nodup : ∀ (n : Nat) (env : MREnv) (incl : Bool) dt v node v',
    mapDoctype env incl n dt v = .ok (node, v') → v.Nodup → v'.Nodup := by
  intro n
  induction n using Nat.strong_induction_on with
  | _ n ih =>
    match n with
    | 0 =>
      intro env incl dt v node v' h
      exact mapStep_nodup (by intro f hf; cases hf) dt v node v' h
    | 1 =>
      intro env incl dt v node v' h
      exact mapStep_nodup (by intro f hf; cases hf) dt v node v' h
    | (m + 2) =>
      intro env incl dt v node v' h
      have hrec : ∀ f, (some (mapDoctype env incl (m + 1)) : Option _) = some f →
          ∀ dt2 v2 node2 v2', f dt2 v2 = .ok (node2, v2') → v2.Nodup → v2'.Nodup := by
        intro f hf
        cases hf
        intro dt2 v2 node2 v2' h2
        exact ih (m + 1) (by omega) env incl dt2 v2 node2 v2' h2
      exact mapStep_nodup hrec dt v node v' h

/-- A DocType already in the visited set is answered with the
circular-reference note and an unchanged visited set, at any depth. -/
theorem mapDoctype_visited (env : MREnv) (incl : Bool) (n : Nat) (dt : String)
    (v : List String) (hmem : dt ∈ v) :
    mapDoctype env incl n dt v = .ok (.circular dt, v) := by
  match n with
  | 0 => simp [mapDoctype, mapStep, hmem]
  | 1 => simp [mapDoctype, mapStep, hmem]
  | (m + 2) => simp [mapDoctype, mapStep, hmem]

/-- `mapDeeper` output-list length is bounded by the input length, and
bounds on the recursive results lift pointwise. -/
theorem mapDeeper_bound {f} {c k : Nat}
    (hf : ∀ dt v node v', f dt v = .ok (node, v') →
      chainDepth node ≤ c ∧ detailBounded k node = true) :
    ∀ (ls : List LinkInfo) (v : List String) d v',
      mapDeeper f ls v = .ok (d, v') →
      d.length ≤ ls.length ∧ chainDepthList d ≤ c ∧ detailBoundedList k d = true := by
  intro ls
  induction ls with
  | nil =>
    intro v d v' h
    simp only [mapDeeper] at h
    cases h
    simp [chainDepthList, detailBoundedList]
  | cons l rest ih =>
    intro v d v' h
    simp only [mapDeeper] at h
    split at h
    · obtain ⟨⟨node, v1⟩, h1, h2⟩ := except_bind_ok h
      obtain ⟨⟨tail, v2⟩, h3, h4⟩ := except_bind_ok h2
      simp only [Pure.pure, Except.pure, Except.ok.injEq, Prod.mk.injEq] at h4
      obtain ⟨rfl, rfl⟩ := h4
      obtain ⟨hl, hcd, hdb⟩ := ih _ _ _ h3
      obtain ⟨hc1, hb1⟩ := hf _ _ _ _ h1
      refine ⟨by simpa using Nat.succ_le_succ hl, ?_, ?_⟩
      · simp [chainDepthList, hc1, hcd]
      · simp [detailBoundedList, hb1, hdb]
    · obtain ⟨hl, hcd, hdb⟩ := ih _ _ _ h
      exact ⟨Nat.le_succ_of_le hl, hcd, hdb⟩

/-- The chain depth contributed by an optional detail list. -/
def detailChain : Option (List (String × MapNode)) → Nat
  | none => 0
  | some d => 1 + chainDepthList d

theorem chainDepth_mapped (b : MapBase) (dp : Option (List (String × MapNode)))
    (s : String) : chainDepth (.mapped b dp s) = detailChain dp := by
  cases dp <;> rfl

/-- `detailBounded` on a mapped node, by cases on the optional detail. -/
theorem detailBounded_mapped (k : Nat) (b : MapBase)
    (dp : Option (List (String × MapNode))) (s : String) :
    detailBounded k (.mapped b dp s) =
      (match dp with
       | none => true
       | some l => decide (l.length ≤ k) && detailBoundedList k l) := by
  cases dp <;> rfl

/-- `deeperOf` bounds: the detail option has chain contribution at most
`c + 1`, at most 5 entries, and all sub-details bounded, given the
recursive call is bounded by `c`. -/
theorem deeperOf_bound {recurse} {c : Nat}
    (hrec : ∀ f, recurse = some f →
      ∀ dt v node v', f dt v = .ok (node, v') →
        chainDepth node ≤ c ∧ detailBounded 5 node = true) :
    ∀ links v1 deeper v2, deeperOf recurse links v1 = .ok (deeper, v2) →
      detailChain deeper ≤ c + 1 ∧
      (match deeper with
       | none => true
       | some l => decide (l.length ≤ 5) && detailBoundedList 5 l) = true := by
  intro links v1 deeper v2 h
  cases recurse with
  | none =>
    simp only [deeperOf, Except.ok.injEq, Prod.mk.injEq] at h
    obtain ⟨rfl, rfl⟩ := h
    simp [detailChain]
  | some f =>
    simp only [deeperOf] at h
    by_cases hl : links ≠ []
    · rw [if_pos hl] at h
      cases hm : mapDeeper f (links.take 5) v1 with
      | error e => simp [hm] at h
      | ok p =>
        obtain ⟨d, v⟩ := p
        simp only [hm] at h
        simp only [Except.ok.injEq, Prod.mk.injEq] at h
        obtain ⟨rfl, rfl⟩ := h
        obtain ⟨hlen, hcd, hdb⟩ := mapDeeper_bound (hrec f rfl) _ _ _ _ hm
        have hl5 : d.length ≤ 5 :=
          le_trans hlen (by simp [List.length_take_le])
        cases d with
        | nil => simp [detailChain, List.isEmpty]
        | cons p rest =>
          have hde : (if (p :: rest).isEmpty = true then none
              else some (p :: rest)) = some (p :: rest) := rfl
          rw [hde]
          simp only [detailChain]
          simp only [List.length_cons] at hl5
          refine ⟨by omega, ?_⟩
          simp only [Bool.and_eq_true, decide_eq_true_eq, List.length_cons]
          exact ⟨by omega, hdb⟩
    · rw [if_neg hl] at h
      simp only [Except.ok.injEq, Prod.mk.injEq] at h
      obtain ⟨rfl, rfl⟩ := h
      simp [detailChain]

/-- `mapStep` bounds: chain depth at most `c + 1` given the recursive call
is bounded by `c` (and 0 when there is no recursive call, since then the
detail is `none`); at most five links expanded per mapped DocType. -/
theorem mapStep_bound {env incl recurse} {c : Nat}
    (hrec : ∀ f, recurse = some f →
      ∀ dt v node v', f dt v = .ok (node, v') →
        chainDepth node ≤ c ∧ detailBounded 5 node = true) :
    ∀ dt v node v', mapStep env incl recurse dt v = .ok (node, v') →
      chainDepth node ≤ c + 1 ∧ detailBounded 5 node = true := by
  intro dt v node v' h
  unfold mapStep at h
  split at h
  · cases h
    simp [chainDepth, detailBounded]
  · cases hc : mapCore env incl dt with
    | error e => simp [hc] at h
    | ok core =>
      simp only [hc] at h
      cases hd : deeperOf recurse core.links_to (v ++ [dt]) with
      | error e => simp [hd] at h
      | ok p =>
        obtain ⟨deeper, visited2⟩ := p
        simp only [hd] at h
        simp only [Except.ok.injEq, Prod.mk.injEq] at h
        obtain ⟨rfl, rfl⟩ := h
        obtain ⟨hc1, hb1⟩ := deeperOf_bound hrec _ _ _ _ hd
        exact ⟨by rw [chainDepth_mapped]; exact hc1,
               by rw [detailBounded_mapped]; exact hb1⟩

/-- With no recursive call, `mapStep` produces a node of chain depth 0. -/
theorem mapStep_chain_none {env incl} :
    ∀ dt v node v', mapStep env incl none dt v = .ok (node, v') →
      chainDepth node = 0 := by
  intro dt v node v' h
  unfold mapStep at h
  split at h
  · cases h
    rfl
  · cases hc : mapCore env incl dt with
    | error e => simp [hc] at h
    | ok core =>
      simp only [hc] at h
      cases hd : deeperOf none core.links_to (v ++ [dt]) with
      | error e => simp [hd] at h
      | ok p =>
        obtain ⟨deeper, visited2⟩ := p
        have hdn : deeper = none := by
          simp only [deeperOf, Except.ok.injEq, Prod.mk.injEq] at hd
          exact hd.1.symm
        simp only [hd] at h
        simp only [Except.ok.injEq, Prod.mk.injEq] at h
        obtain ⟨rfl, rfl⟩ := h
        rw [chainDepth_mapped, hdn]
        rfl

/-- `_map_doctype` at fuel `n` produces link chains of length at most
`n - 1` and expands at most five links per mapped DocType. -/
theorem mapDoctype_bound : ∀ (n : Nat) (env : MREnv) (incl : Bool) dt v node v',
    mapDoctype env incl n dt v = .ok (node, v') →
    chainDepth node ≤ n - 1 ∧ detailBounded 5 node = true := by
  intro n
  induction n using Nat.strong_induction_on with
  | _ n ih =>
    match n with
    | 0 =>
      intro env incl dt v node v' h
      have h1 := mapStep_chain_none dt v node v' h
      have h2 := mapStep_bound (c := 0) (by intro f hf; cases hf) dt v node v' h
      exact ⟨by omega, h2.2⟩
    | 1 =>
      intro env incl dt v node v' h
      have h1 := mapStep_chain_none dt v node v' h
      have h2 := mapStep_bound (c := 0) (by intro f hf; cases hf) dt v node v' h
      exact ⟨by omega, h2.2⟩
    | (m + 2) =>
      intro env incl dt v node v' h
      have hrec : ∀ f, (some (mapDoctype env incl (m + 1)) : Option _) = some f →
          ∀ dt2 v2 node2 v2', f dt2 v2 = .ok (node2, v2') →
            chainDepth node2 ≤ m ∧ detailBounded 5 node2 = true := by
        intro f hf
        cases hf
        intro dt2 v2 node2 v2' h2
        have := ih (m + 1) (by omega) env incl dt2 v2 node2 v2' h2
        exact ⟨by omega, this.2⟩
      have := mapStep_bound (c := m) hrec dt v node v' h
      exact ⟨by omega, this.2⟩

/-- Inversion of a successful `execute`: the mapping result comes from
`_map_doctype` at fuel `(min depth 3).toNat` with an empty visited set. -/
theorem executeMR_ok_node {env : MREnv} {args : MRArgs} {node : MapNode}
    (h : executeMR env args = .ok (.node node)) :
    ∃ v', mapDoctype env args.include_standard (min args.depth 3).toNat
      (pyStrip args.doctype) [] = .ok (node, v') := by
  simp only [executeMR] at h
  split at h
  · simp [Pure.pure, Except.pure] at h
  · obtain ⟨ex, hex, h⟩ := except_bind_ok h
    split at h
    · obtain ⟨found, hf, h⟩ := except_bind_ok h
      split at h <;> simp [Pure.pure, Except.pure] at h
    · obtain ⟨⟨node0, v0⟩, hm, h⟩ := except_bind_ok h
      simp only [Pure.pure, Except.pure, Except.ok.injEq, MROut.node.injEq] at h
      subst h
      exact ⟨v0, hm⟩

/-- C2: for every call to `map_relationships` with integer depth `d`, link
chains are followed to nesting depth at most `min d 3` (indeed at most
`min d 3 - 1`), at most five outgoing links are expanded per mapped
DocType, and the traversal terminates (`mapDoctype` is a total function of
this development, accepted by structural recursion on the clamped depth). -/
theorem mapRelationships_depth_bounded (env : MREnv) (args : MRArgs) (node : MapNode)
    (h : executeMR env args = .ok (.node node)) :
    chainDepth node ≤ (min args.depth 3 - 1).toNat ∧
    (0 < chainDepth node → (chainDepth node : Int) ≤ min args.depth 3) ∧
    detailBounded 5 node = true := by
  obtain ⟨v', hm⟩ := executeMR_ok_node h
  obtain ⟨h1, h2⟩ := mapDoctype_bound _ env args.include_standard _ _ node v' hm
  refine ⟨?_, ?_, h2⟩
  · generalize hG : min args.depth 3 = m at h1 ⊢
    omega
  · intro hpos
    generalize hG : min args.depth 3 = m at h1 ⊢
    omega

/-- The result node of a depth-2 mapping of `A` in the diamond graph. -/
def diamondArgs : MRArgs := { doctype := "A", depth := 2, include_standard := false }

/-- The node produced by `executeMR` on `envDiamond` with `diamondArgs`. -/
def diamondNode2 : MapNode :=
  match executeMR envDiamond diamondArgs with
  | .ok (.node n) => n
  | _ => .circular ""

theorem mapRelationships_depth_bounded_witness :
    executeMR envDiamond diamondArgs = .ok (.node diamondNode2) ∧
    chainDepth diamondNode2 ≤ (min diamondArgs.depth 3 - 1).toNat ∧
    detailBounded 5 diamondNode2 = true := by
  have h : executeMR envDiamond diamondArgs = .ok (.node diamondNode2) := by rfl
  have hb := mapRelationships_depth_bounded envDiamond diamondArgs diamondNode2 h
  exact ⟨h, hb.1, hb.2.2⟩

/-- C3 counterexample: in the diamond graph (`A` links to `B` then `C`; `B`
links to `D`), a depth-3 mapping of `A` expands the DocTypes in the order
`A, B, D, C` (the order in which `_map_doctype` adds them to the visited
set): `D`, at link distance 2 from the root, is expanded before `C`, at
link distance 1 — so the traversal is not breadth-first. -/
theorem mapRelationships_bfs_counterexample :
    Except.map Prod.snd (mapDoctype envDiamond false 3 "A" []) =
      .ok ["A", "B", "D", "C"] ∧
    (linksToOf false (mkMeta [mkLinkField "b" "B", mkLinkField "c" "C"])).map
      LinkInfo.links_to = ["B", "C"] ∧
    (linksToOf false (mkMeta [mkLinkField "d" "D"])).map LinkInfo.links_to = ["D"] ∧
    List.indexOf "D" ["A", "B", "D", "C"] < List.indexOf "C" ["A", "B", "D", "C"] :=
  ⟨rfl, rfl, rfl, by decide⟩

/-- C3 (amended): the walker is a depth-first pre-order traversal — on
success the visited set has grown by exactly the pre-order listing of the
result tree, so each linked DocType is fully mapped (including its own
deeper links) before the next sibling link is expanded. -/
theorem mapRelationships_dfs_preorder (env : MREnv) (incl : Bool) (n : Nat)
    (dt : String) (visited : List String) (node : MapNode) (v' : List String)
    (h : mapDoctype env incl n dt visited = .ok (node, v')) :
    v' = visited ++ dfsPreorder node :=
  mapDoctype_growth n env incl dt visited node v' h

/-- The full run (node and final visited list) of the depth-3 diamond
mapping. -/
def diamondRun : MapNode × List String :=
  match mapDoctype envDiamond false 3 "A" [] with
  | .ok p => p
  | .error _ => (.circular "", [])

theorem mapRelationships_dfs_preorder_witness :
    diamondRun.2 = [] ++ dfsPreorder diamondRun.1 :=
  mapRelationships_dfs_preorder envDiamond false 3 "A" [] diamondRun.1 diamondRun.2
    (by rfl)

/-- C4: cycle safety of the visited-set check.  If the requested DocType is
already visited, `_map_doctype` returns only the circular-reference note
and leaves the visited set unchanged; on any successful call starting from
a duplicate-free visited set, the fully-mapped DocTypes (the pre-order of
the result) are pairwise distinct and disjoint from the initial visited
set — no DocType is mapped twice and no visited DocType is ever chosen as
a deeper recursion target. -/
theorem mapRelationships_cycle_safe (env : MREnv) (incl : Bool) (n : Nat)
    (dt : String) (visited : List String) (node : MapNode) (v' : List String)
    (h : mapDoctype env incl n dt visited = .ok (node, v')) (hnd : visited.Nodup) :
    (dt ∈ visited → node = .circular dt ∧ v' = visited) ∧
    (dfsPreorder node).Nodup ∧ (∀ x ∈ dfsPreorder node, x ∉ visited) := by
  have hgrow := mapDoctype_growth n env incl dt visited node v' h
  have hnodup := mapDoctype_nodup n env incl dt visited node v' h hnd
  subst hgrow
  rw [List.nodup_append] at hnodup
  refine ⟨?_, hnodup.2.1, ?_⟩
  · intro hmem
    have hcirc := mapDoctype_visited env incl n dt visited hmem
    have h2 := hcirc.symm.trans h
    simp only [Except.ok.injEq, Prod.mk.injEq] at h2
    refine ⟨h2.1.symm, ?_⟩
    rw [← h2.1]
    simp [dfsPreorder]
  · intro x hx hxv
    exact hnodup.2.2 hxv hx

/-- Concrete cyclic metadata graph: `A` links to `B` and `B` links back to
`A`. -/
def envCycle : MREnv :=
  { mrEnvBase with getMeta := fun dt =>
      if dt = "A" then .ok (mkMeta [mkLinkField "b" "B"])
      else if dt = "B" then .ok (mkMeta [mkLinkField "a" "A"])
      else (.error "unknown doctype") }

/-- The run of a depth-3 mapping of `A` in the cyclic graph. -/
def cycleRun : MapNode × List String :=
  match mapDoctype envCycle false 3 "A" [] with
  | .ok p => p
  | .error _ => (.circular "", [])

theorem mapRelationships_cycle_safe_witness :
    (dfsPreorder cycleRun.1).Nodup ∧ cycleRun.2 = ["A", "B"] :=
  ⟨(mapRelationships_cycle_safe envCycle false 3 "A" [] cycleRun.1 cycleRun.2
      (by rfl) (by simp)).2.1, by rfl⟩

/-- The six auxiliary lookups of `_map_doctype` that sit in their own
`try/except Exception: pass` blocks. -/
inductive AuxSection where
  | reverseLinks
  | workflowLookup
  | notificationsLookup
  | serverScriptsLookup
  | printFormatsLookup
  | recordCountLookup
  deriving DecidableEq, Repr

/-- Make one auxiliary host lookup raise (for `reverseLinks`, the first of
the two SQL queries raises, so `links_from` stays empty). -/
def failAux : AuxSection → MREnv → MREnv
  | .reverseLinks, env => { env with sqlLinkFields := fun _ => .error "raised" }
  | .workflowLookup, env => { env with getWorkflow := fun _ => .error "raised" }
  | .notificationsLookup, env => { env with getNotifications := fun _ => .error "raised" }
  | .serverScriptsLookup, env => { env with getServerScripts := fun _ => .error "raised" }
  | .printFormatsLookup, env => { env with getPrintFormats := fun _ => .error "raised" }
  | .recordCountLookup, env => { env with dbCount := fun _ => .error "raised" }

/-- Drop the result key(s) produced by one auxiliary section (for
`reverseLinks`, both `links_from` and `links_from_count`). -/
def eraseAux : AuxSection → MapBase → MapBase
  | .reverseLinks, b => { b with links_from := none, links_from_count := none }
  | .workflowLookup, b => { b with workflow := none }
  | .notificationsLookup, b => { b with notifications := none }
  | .serverScriptsLookup, b => { b with server_scripts := none }
  | .printFormatsLookup, b => { b with print_formats := none }
  | .recordCountLookup, b => { b with record_count := none }

/-- The summary string determined by a base result dictionary (the summary
only reads list lengths and presence, all recoverable from the base). -/
def baseSummary (b : MapBase) : String :=
  summaryOf b.doctype (b.links_to.getD []) (b.links_from.getD [])
    (b.child_tables.getD []) b.workflow.isSome

theorem optList_getD {α : Type} [DecidableEq α] (l : List α) :
    (if l ≠ [] then some l else none).getD [] = l := by
  by_cases h : l = [] <;> simp [h]

/-- The summary computed by `mapStep` agrees with `baseSummary` of the base
it produces. -/
theorem baseSummary_coreMk (env : MREnv) (incl : Bool) (dt : String) (meta : Meta)
    (cts : List ChildInfo) :
    summaryOf dt (coreMk env incl dt meta cts).links_to
      (coreMk env incl dt meta cts).links_from
      (coreMk env incl dt meta cts).child_tables
      (coreMk env incl dt meta cts).has_workflow
    = baseSummary (coreMk env incl dt meta cts).base := by
  simp only [coreMk, baseSummary]
  rw [optList_getD, optList_getD, optList_getD]

/-- Failing one auxiliary lookup erases exactly that section's key(s) from
the base dictionary and leaves every other key unchanged. -/
theorem coreMk_base_failAux (s : AuxSection) (env : MREnv) (incl : Bool)
    (dt : String) (meta : Meta) (cts : List ChildInfo) :
    (coreMk (failAux s env) incl dt meta cts).base =
      eraseAux s (coreMk env incl dt meta cts).base := by
  cases s <;>
    simp [coreMk, failAux, eraseAux, linksFromOf, workflowOf, notificationsOf,
      serverScriptsOf, printFormatsOf, recordCountOf, Bind.bind, Except.bind]

/-- C7 counterexample environment: `A` has no fields, one DocType (`X`)
links to it. -/
def c7row : SqlLinkRow :=
  { parent := "X", fieldname := "f", label := "", reqd := false }

def envC7 : MREnv :=
  { mrEnvBase with
      getMeta := fun dt =>
        if dt = "A" then .ok (mkMeta []) else (.error "unknown doctype")
      sqlLinkFields := fun _ => .ok [c7row] }

def c7fromlink : FromLink :=
  { from_doctype := "X", fieldname := "f", label := "f"
  , mandatory := false, custom := false }

/-- The `summary` value of a result node. -/
def nodeSummary : MapNode → Option String
  | .circular _ => none
  | .mapped _ _ s => some s

/-- The `links_from` value of a result node. -/
def nodeLinksFrom : MapNode → Option (List FromLink)
  | .circular _ => none
  | .mapped b _ _ => b.links_from

/-- C7 counterexample: when the reverse-links lookup raises, not only is the
`links_from` key absent (together with `links_from_count`) — the `summary`
key also changes, from `"A: 1 DocTypes link to it"` to
`"A: standalone DocType"`, so the other keys are not all produced
unchanged as the claim states. -/
theorem mapRelationships_aux_frame_counterexample :
    Except.map (fun p => nodeSummary p.1) (mapDoctype envC7 false 1 "A" []) =
      .ok (some "A: 1 DocTypes link to it") ∧
    Except.map (fun p => nodeSummary p.1)
        (mapDoctype (failAux .reverseLinks envC7) false 1 "A" []) =
      .ok (some "A: standalone DocType") ∧
    Except.map (fun p => nodeLinksFrom p.1) (mapDoctype envC7 false 1 "A" []) =
      .ok (some [c7fromlink]) ∧
    Except.map (fun p => nodeLinksFrom p.1)
        (mapDoctype (failAux .reverseLinks envC7) false 1 "A" []) = .ok none ∧
    ("A: 1 DocTypes link to it" : String) ≠ "A: standalone DocType" :=
  ⟨rfl, rfl, rfl, rfl, by decide⟩

/-- C7 (amended): catch-and-ignore failure is section-local up to the
summary.  For a depth-1 mapping, if one auxiliary lookup raises, the result
is the same dictionary with exactly that section's key(s) removed
(`links_from` failure also removes `links_from_count`) and the summary
recomputed without the failed section's contribution; the visited set and
all other keys are unchanged. -/
theorem mapRelationships_aux_failure_local (env : MREnv) (incl : Bool)
    (dt : String) (s : AuxSection) (base : MapBase)
    (deeper : Option (List (String × MapNode))) (summary : String)
    (v' : List String)
    (h : mapDoctype env incl 1 dt [] = .ok (.mapped base deeper summary, v')) :
    mapDoctype (failAux s env) incl 1 dt [] =
      .ok (.mapped (eraseAux s base) none (baseSummary (eraseAux s base)), v') := by
  have h0 : mapStep env incl none dt [] = .ok (.mapped base deeper summary, v') := h
  unfold mapStep at h0
  rw [if_neg (by simp)] at h0
  cases hc : mapCore env incl dt with
  | error e => simp [hc] at h0
  | ok core =>
    simp only [hc, deeperOf] at h0
    simp only [Except.ok.injEq, Prod.mk.injEq, MapNode.mapped.injEq] at h0
    obtain ⟨⟨hbase, hdeep, hsum⟩, hv⟩ := h0
    unfold mapCore at hc
    obtain ⟨meta, hm, hc⟩ := except_bind_ok hc
    obtain ⟨cts, hct, hc⟩ := except_bind_ok hc
    simp only [Pure.pure, Except.pure, Except.ok.injEq] at hc
    have hm2 : (failAux s env).getMeta dt = .ok meta := by cases s <;> exact hm
    have hct2 : childTablesOf (failAux s env) meta = .ok cts := by cases s <;> exact hct
    have hcore2 : mapCore (failAux s env) incl dt =
        .ok (coreMk (failAux s env) incl dt meta cts) := by
      simp only [mapCore, hm2, Bind.bind, Except.bind, hct2, Pure.pure, Except.pure]
    show mapStep (failAux s env) incl none dt [] = _
    unfold mapStep
    rw [if_neg (by simp)]
    simp only [hcore2, deeperOf]
    rw [baseSummary_coreMk, coreMk_base_failAux]
    rw [hc, hbase, hv]

/-- The node of the depth-1 mapping of `A` under `envC7`. -/
def c7node : MapNode :=
  match mapDoctype envC7 false 1 "A" [] with
  | .ok (p, _) => p
  | _ => .circular ""

/-- Its base dictionary, detail, summary and visited list. -/
def c7base : MapBase :=
  match c7node with
  | .mapped b _ _ => b
  | _ => default

def c7deeper : Option (List (String × MapNode)) :=
  match c7node with
  | .mapped _ d _ => d
  | _ => none

def c7summary : String :=
  match c7node with
  | .mapped _ _ s => s
  | _ => ""

def c7visited : List String :=
  match mapDoctype envC7 false 1 "A" [] with
  | .ok (_, v) => v
  | _ => []

theorem mapRelationships_aux_failure_local_witness :
    mapDoctype (failAux .reverseLinks envC7) false 1 "A" [] =
      .ok (.mapped (eraseAux .reverseLinks c7base) none
        (baseSummary (eraseAux .reverseLinks c7base)), c7visited) :=
  mapRelationships_aux_failure_local envC7 false "A" .reverseLinks c7base c7deeper
    c7summary c7visited (by rfl)

end MapRelationships

namespace UniversalSearch

/-- A `meta.fields` entry as read by `universal_search.py` (`fieldname`,
`fieldtype`, `hidden`). -/
structure UField where
  fieldname : String
  fieldtype : String
  hidden : Bool
  deriving DecidableEq, Repr

/-- The slice of a meta object `universal_search.py` reads (`title_field`
is `""` for a Python `None`). -/
structure UMeta where
  title_field : String
  fields : List UField
  deriving DecidableEq, Repr

/-- A row returned by `frappe.get_all`: its `name` plus the other requested
display fields. -/
structure GRow where
  name : String
  data : List (String × String)
  deriving DecidableEq, Repr

/-- A search result after `_search_dt` stamps `r["doctype"] = doctype`. -/
structure SRow where
  doctype : String
  name : String
  data : List (String × String)
  deriving DecidableEq, Repr

/-- One `or_filters` entry `[doctype, fieldname, operator, value]`. -/
inductive FilterVal where
  | fstr (s : String)
  | fnum (q : Rat)
  deriving DecidableEq, Repr

structure Filter4 where
  doctype : String
  fieldname : String
  op : String
  value : FilterVal
  deriving DecidableEq, Repr

/-- The argument record of a `frappe.get_all` search call. -/
structure GetAllArgs where
  doctype : String
  or_filters : List Filter4
  fields : List String
  limit : Nat
  order_by : String
  deriving DecidableEq, Repr

/-- Host-ORM environment for `universal_search.py`.  `pyFloat` models the
Python builtin `float()` (`none` = `ValueError`). -/
structure USEnv where
  dbExistsDocType : String → Except String Bool
  hasPermission : String → Except String Bool
  getMeta : String → Except String UMeta
  getAll : GetAllArgs → Except String (List GRow)
  getAllDoctypes : Except String (List String)
  pyFloat : String → Option Rat

/-- The `PRIORITY_DOCTYPES` class constant (universal_search.py lines
13-19). -/
def PRIORITY_DOCTYPES : List String :=
  [ "Sales Order", "Sales Invoice", "Purchase Order", "Purchase Invoice"
  , "Quotation", "Customer", "Supplier", "Item", "Employee", "Lead"
  , "Opportunity", "Delivery Note", "Purchase Receipt", "Journal Entry"
  , "Payment Entry", "Stock Entry", "Material Request", "Project", "Task"
  , "Contact", "Address", "User", "Company" ]

/-- `UniversalSearch._is_numeric`. -/
def isNumeric (env : USEnv) (query : String) : Bool × Option Rat :=
  let cleaned : String := ⟨query.data.filter (fun c => ¬ (c = ',' ∨ c = ' '))⟩
  match env.pyFloat cleaned with
  | some v => (true, some v)
  | none => (false, none)

/-- `UniversalSearch._get_searchable_fields`. -/
def getSearchableFields (meta : UMeta) (include_numeric : Bool) :
    List String × List String :=
  let text_types := ["Data", "Text", "Small Text", "Text Editor", "Long Text",
    "Select", "Link"]
  let numeric_types := ["Currency", "Float", "Int", "Percent"]
  let step := meta.fields.foldl (fun (acc : List String × List String) field =>
    if field.hidden then acc
    else
      ( if field.fieldtype ∈ text_types then acc.1 ++ [field.fieldname] else acc.1
      , if include_numeric ∧ field.fieldtype ∈ numeric_types then
          acc.2 ++ [field.fieldname]
        else acc.2)) ([], [])
  let text_fields := step.1
  let numeric_fields := step.2
  let text_fields :=
    if "name" ∉ text_fields then "name" :: text_fields else text_fields
  let text_fields :=
    if meta.title_field ≠ "" ∧ meta.title_field ∉ text_fields then
      text_fields.take 1 ++ [meta.title_field] ++ text_fields.drop 1
    else text_fields
  (text_fields.take 8, numeric_fields.take 5)

/-- `UniversalSearch._get_display_fields`. -/
def getDisplayFields (meta : UMeta) : List String :=
  let display :=
    ["name"] ++
      (if meta.title_field ≠ "" ∧ meta.title_field ≠ "name" then
        [meta.title_field] else [])
  let special := ["status", "docstatus", "grand_total", "total", "net_total",
    "customer_name", "supplier_name", "item_name", "employee_name",
    "posting_date", "transaction_date", "company"]
  let display := meta.fields.foldl (fun d field =>
    if field.hidden ∨ field.fieldtype ∈ ["Section Break", "Column Break", "Tab Break"] then d
    else if field.fieldname ∈ special ∧ field.fieldname ∉ d then d ++ [field.fieldname]
    else d) display
  let display := if "modified" ∉ display then display ++ ["modified"] else display
  display.take 8

/-- The `or_filters` list built by both search paths. -/
def mkOrFilters (doctype query : String) (text_fields numeric_fields : List String)
    (is_numeric : Bool) (numeric_val : Option Rat) : List Filter4 :=
  (text_fields.map fun f =>
    Filter4.mk doctype f "like" (.fstr ("%" ++ query ++ "%"))) ++
  (match is_numeric, numeric_val with
   | true, some v => numeric_fields.map fun f => Filter4.mk doctype f "=" (.fnum v)
   | _, _ => [])

/-- `UniversalSearch._search_dt`: the whole body sits in a
`try/except: return []`. -/
def searchDt (env : USEnv) (doctype query : String) (is_numeric : Bool)
    (numeric_val : Option Rat) (limit : Nat) : List SRow :=
  match (do
    let ex ← env.dbExistsDocType doctype
    if ¬ ex then pure []
    else do
      let perm ← env.hasPermission doctype
      if ¬ perm then pure []
      else do
        let meta ← env.getMeta doctype
        let sf := getSearchableFields meta is_numeric
        let display_fields := getDisplayFields meta
        let or_filters := mkOrFilters doctype query sf.1 sf.2 is_numeric numeric_val
        if or_filters = [] then pure []
        else do
          let results ← env.getAll
            ⟨doctype, or_filters, display_fields, limit, "modified desc"⟩
          pure (results.map fun r => SRow.mk doctype r.name r.data)
    : Except String (List SRow)) with
  | .ok l => l
  | .error _ => []

/-- The loop over `PRIORITY_DOCTYPES` in `_global_search`. -/
def priorityPhase (env : USEnv) (query : String) (is_numeric : Bool)
    (numeric_val : Option Rat) (per_dt_limit : Nat) : List SRow × List String :=
  PRIORITY_DOCTYPES.foldl (fun acc dt =>
    let dt_results := searchDt env dt query is_numeric numeric_val per_dt_limit
    if dt_results ≠ [] then (acc.1 ++ dt_results, acc.2 ++ [dt]) else acc)
    ([], [])

/-- The loop over the remaining DocTypes, with the early `break` once
`limit` results have been collected. -/
def remainingPhase (env : USEnv) (query : String) (is_numeric : Bool)
    (numeric_val : Option Rat) (limit : Nat) :
    List String → List SRow × List String → List SRow × List String
  | [], acc => acc
  | dt :: rest, acc =>
    if acc.1.length ≥ limit then acc
    else
      let dt_results := searchDt env dt query is_numeric numeric_val 3
      if dt_results ≠ [] then
        remainingPhase env query is_numeric numeric_val limit rest
          (acc.1 ++ dt_results, acc.2 ++ [dt])
      else
        remainingPhase env query is_numeric numeric_val limit rest acc

/-- The deduplication key `"%s:%s" % (doctype, name)`. -/
def searchKey (r : SRow) : String := r.doctype ++ ":" ++ r.name

/-- The `seen`-set deduplication loop of `_global_search`. -/
def dedupByKey : List SRow → List String → List SRow
  | [], _ => []
  | r :: rs, seen =>
    if searchKey r ∈ seen then dedupByKey rs seen
    else r :: dedupByKey rs (searchKey r :: seen)

/-- Everything `_global_search` collects before deduplication: the raw
result list and the searched DocTypes.  The `frappe.get_all("DocType", ...)`
call is unwrapped, so it can propagate. -/
def globalSearchCollected (env : USEnv) (query : String) (limit : Nat) :
    Except String (List SRow × List String) := do
  let inum := isNumeric env query
  let per_dt_limit := max 3 (limit / 6)
  let acc := priorityPhase env query inum.1 inum.2 per_dt_limit
  if acc.1.length < limit then do
    let all_dts ← env.getAllDoctypes
    let remaining := all_dts.filter (fun d => d ∉ PRIORITY_DOCTYPES)
    pure (remainingPhase env query inum.1 inum.2 limit (remaining.take 30) acc)
  else
    pure acc

/-- The result dictionary of `_global_search`. -/
structure GOut where
  success : Bool
  query : String
  is_numeric_search : Bool
  results : List SRow
  count : Nat
  total_found : Nat
  searched_doctypes : List String
  deriving DecidableEq, Repr, Inhabited

/-- `UniversalSearch._global_search` (universal_search.py lines 145-181). -/
def globalSearch (env : USEnv) (query : String) (limit : Nat) :
    Except String GOut := do
  let inum := isNumeric env query
  let acc ← globalSearchCollected env query limit
  let unique := dedupByKey acc.1 []
  pure { success := true
       , query := query
       , is_numeric_search := inum.1
       , results := unique.take limit
       , count := min unique.length limit
       , total_found := unique.length
       , searched_doctypes := acc.2 }

/-- The result dictionary of `_search_single_doctype_full` (error envelopes
carry `success = false` and the `error` string). -/
structure SingleOut where
  success : Bool
  error : Option String
  doctype : Option String
  query : Option String
  is_numeric_search : Option Bool
  results : List GRow
  count : Nat
  search_fields : List String
  deriving DecidableEq, Repr

/-- An error envelope `{"success": False, "error": msg}`. -/
def singleErr (msg : String) : SingleOut :=
  { success := false, error := some msg, doctype := none, query := none
  , is_numeric_search := none, results := [], count := 0, search_fields := [] }

/-- `UniversalSearch._search_single_doctype_full` (universal_search.py lines
183-210).  None of its host calls is wrapped in a `try`, so a raised
exception propagates to the caller. -/
def searchSingle (env : USEnv) (doctype query : String) (limit : Nat) :
    Except String SingleOut := do
  let ex ← env.dbExistsDocType doctype
  if ¬ ex then
    pure (singleErr ("DocType \x27" ++ doctype ++ "\x27 not found"))
  else do
    let perm ← env.hasPermission doctype
    if ¬ perm then
      pure (singleErr ("No read permission for \x27" ++ doctype ++ "\x27"))
    else do
      let inum := isNumeric env query
      let meta ← env.getMeta doctype
      let sf := getSearchableFields meta inum.1
      let display_fields := getDisplayFields meta
      let or_filters := mkOrFilters doctype query sf.1 sf.2 inum.1 inum.2
      let results ← env.getAll
        ⟨doctype, or_filters, display_fields, limit, "modified desc"⟩
      pure { success := true, error := none, doctype := some doctype
           , query := some query, is_numeric_search := some inum.1
           , results := results, count := results.length
           , search_fields := sf.1 ++ sf.2 }

/-- `execute`'s possible outcomes. -/
inductive UOut where
  | failure (error : String)
  | single (s : SingleOut)
  | global (g : GOut)

/-- `UniversalSearch.execute` (universal_search.py lines 51-62); `doctype`
is `""` when absent (Python tests its truthiness). -/
def executeUS (env : USEnv) (query doctype : String) (limit : Nat) :
    Except String UOut :=
  let q := pyStrip query
  if q = "" then .ok (.failure "Empty search query")
  else if doctype ≠ "" then (searchSingle env doctype q limit).map .single
  else (globalSearch env q limit).map .global

end UniversalSearch

namespace MonitorErrors

/-- An `Error Log` row (fields `name`, `method`, `error`, `creation`). -/
structure ErrRow where
  name : String
  method : String
  error : String
  creation : String
  deriving DecidableEq, Repr

/-- The filters of the `Error Log` query: the creation cutoff string, the
optional `method like` filter, and `limit_page_length`. -/
structure ErrFilters where
  cutoff : String
  method_like : Option String
  limit : Int
  deriving DecidableEq, Repr

/-- Host environment for `monitor_errors.py`.  `hasPermissionErrorLog`
models `frappe.has_permission("Error Log", "read", throw=True)` (`.ok` =
permitted, `.error` = raised); `cutoffOf` models
`add_to_date(now_datetime(), minutes=-minutes)`. -/
structure MEEnv where
  hasPermissionErrorLog : Except String Unit
  cutoffOf : Int → Except String String
  getErrorLogs : ErrFilters → Except String (List ErrRow)

/-- An entry of the returned `errors` list. -/
structure ErrSummary where
  name : String
  method : String
  error_line : String
  creation : String
  deriving DecidableEq, Repr

/-- An entry of the returned `patterns` list (`note` is present only for
repeating errors). -/
structure Pattern where
  error : String
  count : Nat
  methods : List String
  suggestion : String
  severity : String
  note : Option String
  deriving DecidableEq, Repr

/-- The grouping record per distinct error line. -/
structure GroupInfo where
  count : Nat
  methods : List String
  first_seen : String
  last_seen : String
  deriving DecidableEq, Repr

/-- The result dictionary of `monitor_errors.execute` (`Option` fields model
keys absent in some shapes). -/
structure MEOut where
  success : Bool
  error : Option String
  message : Option String
  total : Option Nat
  time_range_minutes : Option Int
  errors : List ErrSummary
  patterns : List Pattern
  deriving DecidableEq, Repr

/-- The grouping key: the last line of the stripped traceback (`"Unknown"`
when empty), truncated to 200 characters. -/
def firstLineOf (error_text : String) : String :=
  let t := pyStrip error_text
  pyTake 200 (if t = "" then "Unknown" else (pySplitChar '\x0a' t).getLastD "Unknown")

/-- Insert one error into the ordered group list (Python keeps `groups` as
an insertion-ordered dict; the `methods` set is modelled as an
insertion-ordered duplicate-free list). -/
def addToGroup : List (String × GroupInfo) → String → String → String →
    List (String × GroupInfo)
  | [], fl, m, c =>
    [(fl, { count := 1,
            methods := (if m ≠ "" then [m] else []),
            first_seen := c,
            last_seen := c })]
  | (k, g) :: rest, fl, m, c =>
    if k = fl then
      (k, { g with
            count := g.count + 1,
            methods := (if m ≠ "" ∧ m ∉ g.methods then g.methods ++ [m] else g.methods) }) :: rest
    else (k, g) :: addToGroup rest fl m c

/-- The full grouping pass over the fetched error rows. -/
def groupsOf (errors : List ErrRow) : List (String × GroupInfo) :=
  errors.foldl (fun gs err => addToGroup gs (firstLineOf err.error) err.method
    err.creation) []

/-- Build one pattern entry from a group. -/
def patternOf (kg : String × GroupInfo) : Pattern :=
  { error := kg.1
  , count := kg.2.count
  , methods := kg.2.methods.take 5
  , suggestion := suggestFix kg.1
  , severity := if kg.2.count ≥ 3 then "high" else "low"
  , note := if kg.2.count ≥ 3 then
      some ("Repeating error (" ++ toString kg.2.count ++
        " times) - likely a systematic issue")
    else none }

/-- The body of `execute` inside the outer `try` (monitor_errors.py lines
43-126). -/
def monitorBody (env : MEEnv) (minutes : Int) (doctype_filter : String)
    (limit : Int) : Except String MEOut :=
  match env.hasPermissionErrorLog with
  | .error _ =>
    .ok { success := false, error := some "No read permission for Error Log"
        , message := none, total := none, time_range_minutes := none
        , errors := [], patterns := [] }
  | .ok () => do
    let cutoff ← env.cutoffOf minutes
    let filters : ErrFilters :=
      { cutoff := cutoff
      , method_like :=
          if doctype_filter ≠ "" then some ("%" ++ doctype_filter ++ "%") else none
      , limit := limit }
    let errors ← env.getErrorLogs filters
    if errors = [] then
      pure { success := true, error := none
           , message := some ("No errors found in the last " ++ toString minutes ++
               " minutes")
           , total := some 0, time_range_minutes := none
           , errors := [], patterns := [] }
    else
      let error_summaries := errors.map fun err =>
        ({ name := err.name, method := err.method
         , error_line := firstLineOf err.error, creation := err.creation } : ErrSummary)
      let patterns := (groupsOf errors).map patternOf
      let patterns := patterns.mergeSort (fun a b => b.count ≤ a.count)
      pure { success := true, error := none, message := none
           , total := some errors.length, time_range_minutes := some minutes
           , errors := error_summaries.take 10, patterns := patterns.take 10 }

/-- `MonitorErrors.execute` (monitor_errors.py lines 42-129): the whole body
sits in a `try/except Exception as e: return {"success": False, "error":
str(e)}`, so no exception leaves it. -/
def executeME (env : MEEnv) (minutes : Int) (doctype_filter : String)
    (limit : Int) : Except String MEOut :=
  match monitorBody env minutes doctype_filter limit with
  | .ok d => .ok d
  | .error e =>
    .ok { success := false, error := some e, message := none, total := none
        , time_range_minutes := none, errors := [], patterns := [] }

end MonitorErrors

namespace UniversalSearch

/-- The deduplication loop emits pairwise-distinct keys, none of them in the
starting `seen` set. -/
theorem dedupByKey_props : ∀ (l : List SRow) (seen : List String),
    ((dedupByKey l seen).map searchKey).Nodup ∧
    (∀ k ∈ (dedupByKey l seen).map searchKey, k ∉ seen) := by
  intro l
  induction l with
  | nil => intro seen; simp [dedupByKey]
  | cons r rs ih =>
    intro seen
    simp only [dedupByKey]
    split
    · exact ih seen
    · rename_i hmem
      obtain ⟨h1, h2⟩ := ih (searchKey r :: seen)
      refine ⟨?_, ?_⟩
      · simp only [List.map_cons, List.nodup_cons]
        exact ⟨fun hk => (h2 _ hk) (List.mem_cons_self _ _), h1⟩
      · intro k hk
        simp only [List.map_cons, List.mem_cons] at hk
        rcases hk with rfl | hk
        · exact hmem
        · exact fun hks => h2 k hk (List.mem_cons_of_mem _ hks)

/-- The key set of the deduplicated list is the collected key set minus the
starting `seen` set. -/
theorem dedupByKey_toFinset : ∀ (l : List SRow) (seen : List String),
    ((dedupByKey l seen).map searchKey).toFinset =
      (l.map searchKey).toFinset \ seen.toFinset := by
  intro l
  induction l with
  | nil => intro seen; simp [dedupByKey]
  | cons r rs ih =>
    intro seen
    simp only [dedupByKey]
    split
    · rename_i hmem
      rw [ih seen]
      ext x
      simp only [Finset.mem_sdiff, List.mem_toFinset, List.map_cons,
        List.toFinset_cons, Finset.mem_insert]
      constructor
      · rintro ⟨hx, hxs⟩
        exact ⟨Or.inr hx, hxs⟩
      · rintro ⟨rfl | hx, hxs⟩
        · exact absurd hmem hxs
        · exact ⟨hx, hxs⟩
    · rename_i hmem
      rw [List.map_cons, List.toFinset_cons, ih (searchKey r :: seen)]
      ext x
      simp only [Finset.mem_insert, Finset.mem_sdiff, List.mem_toFinset,
        List.toFinset_cons, List.map_cons, List.mem_cons]
      constructor
      · rintro (rfl | ⟨hx, hnx⟩)
        · exact ⟨Or.inl rfl, hmem⟩
        · exact ⟨Or.inr hx, fun hs => hnx (Or.inr hs)⟩
      · rintro ⟨rfl | hx, hxs⟩
        · exact Or.inl rfl
        · by_cases hxr : x = searchKey r
          · exact Or.inl hxr
          · exact Or.inr ⟨hx, fun hc => hc.elim hxr hxs⟩

/-- The number of deduplicated entries is the number of distinct keys
collected. -/
theorem dedupByKey_length (l : List SRow) :
    (dedupByKey l []).length = ((l.map searchKey).toFinset).card := by
  have hn := (dedupByKey_props l []).1
  calc (dedupByKey l []).length
      = ((dedupByKey l []).map searchKey).length := by simp
    _ = ((dedupByKey l []).map searchKey).toFinset.card :=
        (List.toFinset_card_of_nodup hn).symm
    _ = ((l.map searchKey).toFinset \ ([] : List String).toFinset).card := by
        rw [dedupByKey_toFinset]
    _ = ((l.map searchKey).toFinset).card := by simp

end UniversalSearch

namespace UniversalSearch

/-- C8 (amended): `_global_search` deduplicates by the composite key string
`doctype:name` — the results carry pairwise-distinct keys (hence no two
entries with the same `(doctype, name)` pair), at most `limit` entries,
`total_found` is the number of distinct key strings collected, and `count`
is `min total_found limit`. -/
theorem universal_global_search_dedup (env : USEnv) (q : String) (limit : Nat)
    (out : GOut) (h : globalSearch env q limit = .ok out) :
    (out.results.map searchKey).Nodup ∧
    (out.results.map (fun r => (r.doctype, r.name))).Nodup ∧
    out.results.length ≤ limit ∧
    out.count = min out.total_found limit ∧
    ∀ collected searched,
      globalSearchCollected env q limit = .ok (collected, searched) →
        out.total_found = ((collected.map searchKey).toFinset).card := by
  simp only [globalSearch] at h
  cases hcol : globalSearchCollected env q limit with
  | error e => simp [hcol] at h
  | ok acc =>
    simp only [hcol, Bind.bind, Except.bind, Pure.pure, Except.pure,
      Except.ok.injEq] at h
    subst h
    have hn := (dedupByKey_props acc.1 []).1
    have hkeys : ((dedupByKey acc.1 []).take limit).map searchKey =
        ((dedupByKey acc.1 []).map searchKey).take limit := by
      rw [List.map_take]
    have hnodup : (((dedupByKey acc.1 []).take limit).map searchKey).Nodup := by
      rw [hkeys]
      exact hn.sublist (List.take_sublist _ _)
    refine ⟨hnodup, ?_, ?_, rfl, ?_⟩
    · have hmm : (((dedupByKey acc.1 []).take limit).map
          (fun r => (r.doctype, r.name))).map (fun p => p.1 ++ ":" ++ p.2) =
          ((dedupByKey acc.1 []).take limit).map searchKey := by
        rw [List.map_map]
        rfl
      exact List.Nodup.of_map _ (hmm.symm ▸ hnodup)
    · exact List.length_take_le _ _
    · intro c s hcol2
      simp only [Except.ok.injEq] at hcol2
      subst hcol2
      exact dedupByKey_length c

/-- C8 counterexample environment: two DocTypes named `A` and `A:B`, one
matching record each, with names chosen so that the two distinct
`(doctype, name)` pairs `("A", "B:x")` and `("A:B", "x")` share the
composite key string `"A:B:x"`. -/
def envC8 : USEnv :=
  { dbExistsDocType := fun dt => .ok (dt == "A" || dt == "A:B")
  , hasPermission := fun _ => .ok true
  , getMeta := fun dt =>
      if dt == "A" || dt == "A:B" then .ok ⟨"", []⟩ else (.error "no meta")
  , getAll := fun args =>
      if args.doctype == "A" then .ok [⟨"B:x", []⟩]
      else if args.doctype == "A:B" then .ok [⟨"x", []⟩]
      else .ok []
  , getAllDoctypes := .ok ["A", "A:B"]
  , pyFloat := fun _ => none }

/-- C8 counterexample: the collected results hold two distinct
`(doctype, name)` pairs, but their composite keys collide, so
`total_found` is 1, not the number of distinct pairs (2). -/
theorem universal_total_found_counterexample :
    Except.map (fun p => p.1.map (fun r => (r.doctype, r.name)))
      (globalSearchCollected envC8 "x" 20) = .ok [("A", "B:x"), ("A:B", "x")] ∧
    Except.map (fun p => (p.1.map (fun r => (r.doctype, r.name))).dedup.length)
      (globalSearchCollected envC8 "x" 20) = .ok 2 ∧
    Except.map GOut.total_found (globalSearch envC8 "x" 20) = .ok 1 ∧
    (1 : Nat) ≠ 2 :=
  ⟨rfl, rfl, rfl, by decide⟩

/-- The `_global_search` output on the colliding-key environment. -/
def c8out : GOut :=
  match globalSearch envC8 "x" 20 with
  | .ok o => o
  | .error _ => default

theorem universal_global_search_dedup_witness :
    (c8out.results.map searchKey).Nodup ∧ c8out.results.length ≤ 20 ∧
    c8out.count = min c8out.total_found 20 :=
  have h := universal_global_search_dedup envC8 "x" 20 c8out (by rfl)
  ⟨h.1, h.2.2.1, h.2.2.2.1⟩

/-- A host environment whose metadata lookup raises (used to exhibit
exception propagation out of `_search_single_doctype_full`). -/
def usEnvBoom : USEnv :=
  { dbExistsDocType := fun _ => .ok true
  , hasPermission := fun _ => .ok true
  , getMeta := fun _ => .error "boom"
  , getAll := fun _ => .ok []
  , getAllDoctypes := .ok []
  , pyFloat := fun _ => none }

end UniversalSearch

/-- C1 counterexample: not every tool wraps its host-ORM calls — a raised
`frappe.get_meta` exception propagates out of `MapRelationships.execute`
(whose body has no `try`), and out of
`UniversalSearch._search_single_doctype_full` (reached from `execute` with
a `doctype` argument), instead of being returned as an error envelope. -/
theorem tool_exception_counterexample :
    MapRelationships.executeMR MapRelationships.mrEnvBase
      { doctype := "A", depth := 1, include_standard := false } =
      .error "unknown doctype" ∧
    UniversalSearch.searchSingle UniversalSearch.usEnvBoom "A" "x" 20 =
      .error "boom" ∧
    UniversalSearch.executeUS UniversalSearch.usEnvBoom "x" "A" 20 =
      .error "boom" :=
  ⟨rfl, rfl, rfl⟩

/-- C1 (amended): tools whose execute body sits in an outer
`try/except` — such as `MonitorErrors.execute` — catch every host
exception and return a success/error envelope, for every environment and
argument object; but `MapRelationships.execute` and
`UniversalSearch._search_single_doctype_full` make unwrapped host-ORM
calls whose exceptions propagate to the caller. -/
theorem tool_exception_envelopes :
    (∀ (env : MonitorErrors.MEEnv) (minutes : Int) (dtf : String) (limit : Int),
      ∃ d, MonitorErrors.executeME env minutes dtf limit = .ok d) ∧
    MapRelationships.executeMR MapRelationships.mrEnvBase
      { doctype := "A", depth := 1, include_standard := false } =
      .error "unknown doctype" ∧
    UniversalSearch.executeUS UniversalSearch.usEnvBoom "x" "A" 20 =
      .error "boom" := by
  refine ⟨?_, rfl, rfl⟩
  intro env minutes dtf limit
  unfold MonitorErrors.executeME
  cases MonitorErrors.monitorBody env minutes dtf limit <;> exact ⟨_, rfl⟩

namespace BuildBlueprint

/-- A JSON value inside a step's `data` object, as far as
`build_blueprint.py` itself inspects it: strings (`name`, `dt`,
`fieldname`, `workflow_name`), numbers/booleans passed through to the
host, and arrays modelled by their length (the code only reads
`len(data.get("fields", []))`). -/
inductive BVal where
  | s (v : String)
  | n (v : Int)
  | b (v : Bool)
  | arr (len : Nat)
  deriving DecidableEq, Repr

/-- `data.get(k, "")` (also the falsy default of `data.get(k)`). -/
def dataGetStr (d : List (String × BVal)) (k : String) : String :=
  match d.lookup k with
  | some (.s v) => v
  | _ => ""

/-- `len(data.get(k, []))`. -/
def dataGetArrLen (d : List (String × BVal)) (k : String) : Nat :=
  match d.lookup k with
  | some (.arr len) => len
  | _ => 0

/-- One build step (`doctype` and `data` default to `""`/`{}` via `get`;
`description` defaults to `"Step n"` when the key is absent). -/
structure Step where
  doctype : String
  data : List (String × BVal)
  description : Option String
  deriving DecidableEq, Repr

/-- A state mutation performed through the host ORM. -/
inductive Effect where
  | insert (doctype : String) (name : String)
  | commit
  | clearCache (doctype : String)
  deriving DecidableEq, Repr

/-- Host-ORM environment for `build_blueprint.py`.  `insertDoc` models
`frappe.get_doc({doctype, **data})` with flags plus the optional explicit
name assignment and `doc.insert(ignore_if_duplicate=True)`, returning the
final `doc.name`; `insertDocTypeDoc` models the `_create_doctype` document
construction and `doc.insert()`. -/
structure BBEnv where
  dbExists : String → String → Except String Bool
  insertDoc : String → List (String × BVal) → Option String → Except String String
  insertDocTypeDoc : List (String × BVal) → Except String Unit

/-- What `_execute_step` returns: a created document (name and message) or
the `{"error": ...}` dictionary `_create_doctype` returns on a missing
name. -/
inductive StepRes where
  | created (name message : String)
  | errDict (msg : String)
  deriving DecidableEq, Repr

/-- `result.get("name", "")`. -/
def resName : StepRes → String
  | .created nm _ => nm
  | .errDict _ => ""

/-- `result.get("message", "Created successfully")`. -/
def resMessage : StepRes → String
  | .created _ m => m
  | .errDict _ => "Created successfully"

/-- `BuildBlueprint._create_doctype` (build_blueprint.py lines 223-268). -/
def createDoctype (env : BBEnv) (data : List (String × BVal)) :
    Except String StepRes × List Effect :=
  let name := dataGetStr data "name"
  if name = "" then (.ok (.errDict "DocType name is required"), [])
  else
    match env.dbExists "DocType" name with
    | .error e => (.error e, [])
    | .ok true => (.ok (.created name "DocType already exists — skipped"), [])
    | .ok false =>
      match env.insertDocTypeDoc data with
      | .error e => (.error e, [])
      | .ok () =>
        (.ok (.created name ("Created DocType with " ++
            toString (dataGetArrLen data "fields") ++
            " fields. Run \x27bench migrate\x27 to create table.")),
         [.insert "DocType" name, .commit, .clearCache name])

/-- `BuildBlueprint._execute_step` (build_blueprint.py lines 197-221). -/
def executeStep (env : BBEnv) (doctype : String) (data : List (String × BVal)) :
    Except String StepRes × List Effect :=
  if doctype = "DocType" then createDoctype env data
  else
    let explicit_name :=
      if doctype = "Custom Field" ∧ dataGetStr data "name" = "" ∧
          dataGetStr data "dt" ≠ "" ∧ dataGetStr data "fieldname" ≠ "" then
        some (dataGetStr data "dt" ++ "-" ++ dataGetStr data "fieldname")
      else none
    match env.insertDoc doctype data explicit_name with
    | .error e => (.error e, [])
    | .ok nm =>
      (.ok (.created nm ("Created " ++ doctype ++ " successfully")),
       [.insert doctype nm, .commit])

/-- `BuildBlueprint._validate_step` (build_blueprint.py lines 171-195): its
`frappe.db.exists` calls are unwrapped, so they can propagate. -/
def validateStep (env : BBEnv) (doctype : String) (data : List (String × BVal)) :
    Except String (Bool × String) := do
  let ex ← env.dbExists "DocType" doctype
  if ¬ ex then
    pure (false, "DocType \x27" ++ doctype ++ "\x27 does not exist")
  else do
    let dup1 ←
      if doctype = "DocType" ∧ dataGetStr data "name" ≠ "" then
        env.dbExists "DocType" (dataGetStr data "name")
      else pure false
    if dup1 then
      pure (false, "DocType \x27" ++ dataGetStr data "name" ++ "\x27 already exists")
    else do
      let dt := dataGetStr data "dt"
      let fn := dataGetStr data "fieldname"
      let dup2 ←
        if doctype = "Custom Field" ∧ dt ≠ "" ∧ fn ≠ "" then
          env.dbExists "Custom Field" (dt ++ "-" ++ fn)
        else pure false
      if dup2 then
        pure (false, "Custom Field \x27" ++ dt ++ "-" ++ fn ++ "\x27 already exists")
      else do
        let wf := dataGetStr data "workflow_name"
        let dup3 ←
          if doctype = "Workflow" ∧ wf ≠ "" then env.dbExists "Workflow" wf
          else pure false
        if dup3 then
          pure (false, "Workflow \x27" ++ wf ++ "\x27 already exists")
        else
          pure (true, "Validation passed")

/-- One `build_log` entry (`traceback` holds the host-formatted traceback,
modelled by the exception message). -/
structure LogEntry where
  step : Nat
  total : Nat
  description : String
  doctype : String
  status : String
  message : Option String
  error : Option String
  tb : Option String
  name : Option String
  deriving DecidableEq, Repr

/-- The step loop of `execute` (build_blueprint.py lines 80-128), returning
the build log, the `created` and `failed` lists and the accumulated host
mutations.  Only the dry-run validation can raise (its `db.exists` calls
are unwrapped); `_execute_step` exceptions are caught per step. -/
def runSteps (env : BBEnv) (dry_run : Bool) (total : Nat) :
    List Step → Nat →
    Except String (List LogEntry × List (String × String × String) ×
      List (Nat × String × String) × List Effect)
  | [], _ => .ok ([], [], [], [])
  | step :: rest, i =>
    let step_num := i + 1
    let doctype := step.doctype
    let data := step.data
    let desc := step.description.getD ("Step " ++ toString step_num)
    let base : LogEntry :=
      { step := step_num, total := total, description := desc, doctype := doctype
      , status := "", message := none, error := none, tb := none, name := none }
    if doctype = "" ∨ data = [] then do
      let (logs, cr, fl, ef) ← runSteps env dry_run total rest (i + 1)
      pure ({ base with status := "SKIPPED",
                        message := some "Missing doctype or data" } :: logs, cr, fl, ef)
    else if dry_run then do
      let vr ← validateStep env doctype data
      let (logs, cr, fl, ef) ← runSteps env dry_run total rest (i + 1)
      pure ({ base with status := (if vr.1 then "VALID" else "INVALID"),
                        message := some vr.2 } :: logs, cr, fl, ef)
    else
      match executeStep env doctype data with
      | (.ok res, effs) => do
        let (logs, cr, fl, ef) ← runSteps env dry_run total rest (i + 1)
        pure ({ base with status := "SUCCESS", name := some (resName res),
                          message := some (resMessage res) } :: logs,
          (doctype, resName res, desc) :: cr, fl, effs ++ ef)
      | (.error e, effs) => do
        let (logs, cr, fl, ef) ← runSteps env dry_run total rest (i + 1)
        pure ({ base with status := "FAILED", error := some e,
                          tb := some e } :: logs, cr, (step_num, desc, e) :: fl, effs ++ ef)

/-- The summary dictionary `execute` returns. -/
structure BBSummary where
  module_name : String
  dry_run : Bool
  total_steps : Nat
  success : Nat
  failed : Nat
  skipped : Nat
  status : String
  created_items : Option (List (String × String × String))
  failed_items : Option (List (Nat × String × String))
  build_log : String
  action_required : Option String
  deriving DecidableEq, Repr, Inhabited

/-- One line of the progress display. -/
def progressLine (log : LogEntry) : String :=
  let icon :=
    if log.status = "SUCCESS" then "✅"
    else if log.status = "FAILED" then "❌"
    else if log.status = "SKIPPED" then "⏭️"
    else if log.status = "VALID" then "✓"
    else if log.status = "INVALID" then "✗"
    else "⚙️"
  let line := icon ++ " [" ++ toString log.step ++ "/" ++ toString log.total ++
    "] " ++ log.description ++ " — " ++ (log.message.getD (log.error.getD ""))
  match log.name with
  | some nm => if nm ≠ "" then line ++ " (name: " ++ nm ++ ")" else line
  | none => line

/-- `execute`'s two possible result dictionaries. -/
inductive BBOut where
  | errDict (msg : String)
  | summary (s : BBSummary)

/-- `BuildBlueprint.execute` (build_blueprint.py lines 64-169), paired with
the host mutations it performs. -/
def executeBB (env : BBEnv) (steps : List Step) (module_name : String)
    (dry_run : Bool) : Except String (BBOut × List Effect) :=
  if steps = [] then .ok (.errDict "No build steps provided", [])
  else if steps.length > 50 then
    .ok (.errDict "Too many steps (max 50). Break into smaller modules.", [])
  else do
    let (build_log, created, failed, effects) ←
      runSteps env dry_run steps.length steps 0
    let success_count := created.length
    let fail_count := failed.length
    let skip_count := steps.length - success_count - fail_count
    let needs_migrate := build_log.any fun log =>
      log.doctype = "DocType" && log.status = "SUCCESS"
    pure (.summary
      { module_name := module_name
      , dry_run := dry_run
      , total_steps := steps.length
      , success := success_count
      , failed := fail_count
      , skipped := skip_count
      , status :=
          (if fail_count = 0 then "COMPLETE"
           else if success_count > 0 then "PARTIAL" else "FAILED")
      , created_items := (if created ≠ [] then some created else none)
      , failed_items := (if failed ≠ [] then some failed else none)
      , build_log := String.intercalate "\x0a" (build_log.map progressLine)
      , action_required :=
          (if needs_migrate then
            some "New DocType(s) created — run \x27bench migrate\x27 to create database tables"
          else none) }, effects)

/-- C9: `build_blueprint` never mutates state outside its bounds.  With more
than 50 steps, `execute` returns the error dictionary without performing
any host mutation; in a dry run every step is only validated — no host
mutation happens, nothing is created or failed, every logged status is
`VALID`, `INVALID` or `SKIPPED`, and any returned summary reports
`success = 0` with no `created_items`. -/
theorem build_blueprint_dry_run_safe (env : BBEnv) (steps : List Step)
    (module_name : String) :
    (steps.length > 50 → ∀ dry_run, executeBB env steps module_name dry_run =
      .ok (.errDict "Too many steps (max 50). Break into smaller modules.", [])) ∧
    (∀ total i logs cr fl ef,
      runSteps env true total steps i = .ok (logs, cr, fl, ef) →
      ef = [] ∧ cr = [] ∧ fl = [] ∧
      ∀ l ∈ logs, l.status = "VALID" ∨ l.status = "INVALID" ∨
        l.status = "SKIPPED") ∧
    (∀ s effects, executeBB env steps module_name true = .ok (.summary s, effects) →
      effects = [] ∧ s.success = 0 ∧ s.created_items = none ∧
        s.dry_run = true) := by
  have aux : ∀ (ss : List Step) (total i logs cr fl ef),
      runSteps env true total ss i = .ok (logs, cr, fl, ef) →
      ef = [] ∧ cr = [] ∧ fl = [] ∧
      ∀ l ∈ logs, l.status = "VALID" ∨ l.status = "INVALID" ∨
        l.status = "SKIPPED" := by
    intro ss
    induction ss with
    | nil =>
      intro total i logs cr fl ef h
      simp only [runSteps] at h
      cases h
      exact ⟨rfl, rfl, rfl, by simp⟩
    | cons st rest ih =>
      intro total i logs cr fl ef h
      simp only [runSteps] at h
      split at h
      · obtain ⟨⟨logs1, cr1, fl1, ef1⟩, h1, h2⟩ := except_bind_ok h
        simp only [Pure.pure, Except.pure, Except.ok.injEq, Prod.mk.injEq] at h2
        obtain ⟨rfl, rfl, rfl, rfl⟩ := h2
        obtain ⟨he, hc, hf, hl⟩ := ih total (i + 1) logs1 cr1 fl1 ef1 h1
        refine ⟨he, hc, hf, ?_⟩
        intro l hl2
        rcases List.mem_cons.mp hl2 with rfl | hl3
        · right; right; rfl
        · exact hl l hl3
      · simp only [if_true] at h
        obtain ⟨vr, hv, h⟩ := except_bind_ok h
        obtain ⟨⟨logs1, cr1, fl1, ef1⟩, h1, h2⟩ := except_bind_ok h
        simp only [Pure.pure, Except.pure, Except.ok.injEq, Prod.mk.injEq] at h2
        obtain ⟨rfl, rfl, rfl, rfl⟩ := h2
        obtain ⟨he, hc, hf, hl⟩ := ih total (i + 1) logs1 cr1 fl1 ef1 h1
        refine ⟨he, hc, hf, ?_⟩
        intro l hl2
        rcases List.mem_cons.mp hl2 with rfl | hl3
        · by_cases hvr : vr.1 = true
          · left; simp [hvr]
          · right; left; simp [hvr]
        · exact hl l hl3
  refine ⟨?_, aux steps, ?_⟩
  · intro hlen dry_run
    have h0 : ¬ steps = [] := by
      intro he
      rw [he] at hlen
      simp at hlen
    unfold executeBB
    rw [if_neg h0, if_pos hlen]
  · intro s effects h
    unfold executeBB at h
    split at h
    · simp [Pure.pure, Except.pure] at h
    · split at h
      · simp [Pure.pure, Except.pure] at h
      · obtain ⟨⟨logs, cr, fl, ef⟩, h1, h2⟩ := except_bind_ok h
        simp only [Pure.pure, Except.pure, Except.ok.injEq, Prod.mk.injEq,
          BBOut.summary.injEq] at h2
        obtain ⟨hs, rfl⟩ := h2
        obtain ⟨he, hc, hf, _⟩ := aux steps steps.length 0 logs cr fl ef h1
        subst he hc hf
        refine ⟨rfl, ?_, ?_, ?_⟩ <;> rw [← hs] <;> simp

/-- A trivially-succeeding host environment for `build_blueprint`. -/
def bbEnvTriv : BBEnv :=
  { dbExists := fun _ _ => .ok true
  , insertDoc := fun _ _ _ => .ok "X"
  , insertDocTypeDoc := fun _ => .ok () }

/-- A concrete Custom Field step. -/
def stepCF : Step :=
  { doctype := "Custom Field", data := [("dt", .s "Customer")]
  , description := some "add field" }

/-- The summary of a one-step dry run. -/
def bbDrySummary : BBSummary :=
  match executeBB bbEnvTriv [stepCF] "M" true with
  | .ok (.summary s, _) => s
  | _ => default

theorem build_blueprint_dry_run_safe_witness :
    executeBB bbEnvTriv (List.replicate 51 stepCF) "M" false =
      .ok (.errDict "Too many steps (max 50). Break into smaller modules.", []) ∧
    bbDrySummary.success = 0 ∧ bbDrySummary.created_items = none := by
  constructor
  · exact (build_blueprint_dry_run_safe bbEnvTriv (List.replicate 51 stepCF)
      "M").1 (by simp) false
  · have h := (build_blueprint_dry_run_safe bbEnvTriv [stepCF] "M").2.2
      bbDrySummary [] (by rfl)
    exact ⟨h.2.1, h.2.2.1⟩

end BuildBlueprint

namespace RollbackChanges

/-- The attributes of a fetched customization document that
`rollback_changes.py` reads.  An `Option` field models attribute presence
(`hasattr`); `frappe.get_doc(doctype, name)` guarantees `doctype` and
`name`, which the embedding stamps from the request. -/
structure RDoc where
  doctype : String
  name : String
  disabled : Option Int
  enabled : Option Int
  hidden : Option Int
  dt : String
  fieldname : String
  doc_type : String
  property : String
  deriving DecidableEq, Repr

/-- A state mutation performed through the host ORM. -/
inductive REffect where
  | save (doctype name : String)
  | commit
  | rollback
  | delete (doctype name : String)
  deriving DecidableEq, Repr

/-- Host environment for `rollback_changes.py`.  `hasPermW` models
`frappe.has_permission(doctype, "write", throw=True)`; `getCFFetchRefs`
returns the `(dt, fieldname)` pairs of Custom Fields whose `fetch_from`
references the field; `getScriptRefs` the names of enabled Server Scripts
whose script mentions the fieldname. -/
structure RCEnv where
  hasPermW : String → Except String Unit
  dbExists : String → String → Except String Bool
  getDocData : String → String → Except String RDoc
  saveDoc : RDoc → Except String Unit
  deleteDocCall : String → String → Except String Unit
  getCFFetchRefs : String → String → Except String (List (String × String))
  getScriptRefs : String → Except String (List String)

/-- The `deleted` info sub-dictionary. -/
structure DelInfo where
  doctype : String
  name : String
  dt : Option String
  fieldname : Option String
  doc_type : Option String
  property : Option String
  deriving DecidableEq, Repr

/-- The result dictionary of `rollback_changes` (keys absent in a given
shape are `none`). -/
structure RDict where
  success : Bool
  error : Option String
  message : Option String
  suggestion : Option String
  dependencies : Option (List String)
  deleted : Option DelInfo
  deriving DecidableEq, Repr

/-- `{"success": False, "error": msg}`. -/
def rerr (msg : String) : RDict :=
  { success := false, error := some msg, message := none, suggestion := none
  , dependencies := none, deleted := none }

/-- `{"success": False, "error": msg, "suggestion": sugg}`. -/
def rerrSugg (msg sugg : String) : RDict :=
  { rerr msg with suggestion := some sugg }

/-- `{"success": True, "message": msg}`. -/
def rmsg (msg : String) : RDict :=
  { success := true, error := none, message := some msg, suggestion := none
  , dependencies := none, deleted := none }

/-- `RollbackChanges._disable` (rollback_changes.py lines 76-119), with the
host mutations it performs. -/
def disableDoc (env : RCEnv) (doc : RDoc) : RDict × List REffect :=
  let dt := doc.doctype
  if dt = "Client Script" ∨ dt = "Server Script" then
    match doc.disabled with
    | some _ =>
      match env.saveDoc { doc with disabled := some 1 } with
      | .error e => (rerr e, [])
      | .ok () =>
        (rmsg (dt ++ " \x27" ++ doc.name ++ "\x27 has been disabled"),
         [.save dt doc.name, .commit])
    | none =>
      match doc.enabled with
      | some _ =>
        match env.saveDoc { doc with enabled := some 0 } with
        | .error e => (rerr e, [])
        | .ok () =>
          (rmsg (dt ++ " \x27" ++ doc.name ++ "\x27 has been disabled"),
           [.save dt doc.name, .commit])
      | none => (rerr (dt ++ " does not support disable"), [])
  else if dt = "Custom Field" then
    match env.saveDoc { doc with hidden := some 1 } with
    | .error e => (rerr ("Failed to hide field: " ++ e), [])
    | .ok () =>
      (rmsg ("Custom Field \x27" ++ doc.name ++
        "\x27 has been hidden (set hidden=1). To fully remove, use action=delete."),
       [.save dt doc.name, .commit])
  else if dt = "Property Setter" then
    (rerr "Property Setters cannot be disabled, only deleted. Use action=delete.", [])
  else
    (rerr ("Disable not supported for " ++ dt), [])

/-- `RollbackChanges._check_dependencies` (rollback_changes.py lines
168-212): each query in its own `try/except: pass`. -/
def checkDependencies (env : RCEnv) (doc : RDoc) : Bool × List String :=
  let dt := doc.doctype
  if dt = "Custom Field" then
    let fieldname := doc.fieldname
    let target_dt := doc.dt
    if fieldname ≠ "" ∧ target_dt ≠ "" then
      let d1 :=
        match env.getCFFetchRefs target_dt fieldname with
        | .ok refs => refs.map fun r =>
            "Custom Field \x27" ++ r.1 ++ "." ++ r.2 ++
              "\x27 has fetch_from referencing this field"
        | .error _ => []
      let d2 :=
        match env.getScriptRefs fieldname with
        | .ok ss => ss.map fun n =>
            "Server Script \x27" ++ n ++ "\x27 references this field"
        | .error _ => []
      let details := d1 ++ d2
      (details.length > 0, details)
    else (false, [])
  else (false, [])

/-- `RollbackChanges._delete` (rollback_changes.py lines 121-166), with the
host mutations it performs (a raise from `delete_doc` triggers the
`frappe.db.rollback()` of the handler). -/
def deleteDocFn (env : RCEnv) (doc : RDoc) : RDict × List REffect :=
  let dt := doc.doctype
  let deps := checkDependencies env doc
  if deps.1 then
    ({ success := false, error := some "Cannot delete - has dependencies"
     , message := none
     , suggestion := some "Use action=disable instead, or remove dependencies first."
     , dependencies := some deps.2, deleted := none }, [])
  else if (dt = "Client Script" ∨ dt = "Server Script") ∧ ¬ (doc.disabled.getD 0 = 1) then
    (rerrSugg "Script is still enabled. Disable it first before deleting."
      "Use action=disable first, verify nothing breaks, then delete.", [])
  else
    let info : DelInfo :=
      { doctype := dt, name := doc.name
      , dt := (if dt = "Custom Field" then some doc.dt else none)
      , fieldname := (if dt = "Custom Field" then some doc.fieldname else none)
      , doc_type := (if dt = "Property Setter" then some doc.doc_type else none)
      , property := (if dt = "Property Setter" then some doc.property else none) }
    match env.deleteDocCall dt doc.name with
    | .error e => (rerr e, [.rollback])
    | .ok () =>
      ({ rmsg (dt ++ " \x27" ++ doc.name ++ "\x27 has been deleted") with
           deleted := some info },
       [.delete dt doc.name, .commit])

/-- The allowed customization types. -/
def allowedTypes : List String :=
  ["Custom Field", "Property Setter", "Client Script", "Server Script"]

/-- `RollbackChanges.execute` (rollback_changes.py lines 42-74): the whole
body sits in an outer `try/except`, so nothing propagates; unwrapped
`db.exists`/`get_doc` raises fall to the outer handler. -/
def executeRC (env : RCEnv) (doctype name action : String) :
    RDict × List REffect :=
  match (do
    if doctype = "" ∨ name = "" then
      pure ((rerr "doctype and name are required", []) : RDict × List REffect)
    else if doctype ∉ allowedTypes then
      pure (rerr ("doctype must be one of: " ++ String.intercalate ", " allowedTypes), [])
    else
      match env.hasPermW doctype with
      | .error _ => pure (rerr ("No write permission for " ++ doctype), [])
      | .ok () => do
        let ex ← env.dbExists doctype name
        if ¬ ex then
          pure (rerr (doctype ++ " \x27" ++ name ++ "\x27 does not exist"), [])
        else do
          let d ← env.getDocData doctype name
          let doc := { d with doctype := doctype, name := name }
          if action = "disable" then pure (disableDoc env doc)
          else if action = "delete" then pure (deleteDocFn env doc)
          else pure (rerr "action must be \x27delete\x27 or \x27disable\x27", [])
    : Except String (RDict × List REffect)) with
  | .ok r => r
  | .error e => (rerr e, [])

/-- C10: the two fixed refusal cases never modify state.  For every
existing Property Setter, `action=disable` returns `success=False` with
the cannot-be-disabled message and performs no host mutation; for every
existing Client Script or Server Script that is not already disabled,
`action=delete` returns `success=False` with the disable-first message,
deleting nothing. -/
theorem rollback_refusals (env : RCEnv) :
    (∀ name d, name ≠ "" → env.hasPermW "Property Setter" = .ok () →
      env.dbExists "Property Setter" name = .ok true →
      env.getDocData "Property Setter" name = .ok d →
      executeRC env "Property Setter" name "disable" =
        (rerr "Property Setters cannot be disabled, only deleted. Use action=delete.",
         [])) ∧
    (∀ dt name d, (dt = "Client Script" ∨ dt = "Server Script") → name ≠ "" →
      env.hasPermW dt = .ok () → env.dbExists dt name = .ok true →
      env.getDocData dt name = .ok d → d.disabled.getD 0 ≠ 1 →
      executeRC env dt name "delete" =
        (rerrSugg "Script is still enabled. Disable it first before deleting."
          "Use action=disable first, verify nothing breaks, then delete.", [])) := by
  constructor
  · intro name d hname hperm hex hdoc
    unfold executeRC
    rw [if_neg (by simp [hname])]
    rw [if_neg (by decide)]
    rw [hperm]
    simp only [hex, Bind.bind, Except.bind, hdoc]
    simp [disableDoc, Pure.pure, Except.pure]
  · intro dt name d hdt hname hperm hex hdoc hdis
    rcases hdt with rfl | rfl <;>
    · unfold executeRC
      rw [if_neg (by simp [hname])]
      rw [if_neg (by decide)]
      rw [hperm]
      simp only [hex, Bind.bind, Except.bind, hdoc]
      simp [deleteDocFn, checkDependencies, Pure.pure, Except.pure, hdis]

/-- A document with every attribute empty/absent. -/
def docTriv : RDoc :=
  { doctype := "", name := "", disabled := none, enabled := none, hidden := none
  , dt := "", fieldname := "", doc_type := "", property := "" }

/-- A trivially-succeeding rollback host environment. -/
def rcEnvTriv : RCEnv :=
  { hasPermW := fun _ => .ok ()
  , dbExists := fun _ _ => .ok true
  , getDocData := fun _ _ => .ok docTriv
  , saveDoc := fun _ => .ok ()
  , deleteDocCall := fun _ _ => .ok ()
  , getCFFetchRefs := fun _ _ => .ok []
  , getScriptRefs := fun _ => .ok [] }

theorem rollback_refusals_witness :
    executeRC rcEnvTriv "Property Setter" "PS-1" "disable" =
      (rerr "Property Setters cannot be disabled, only deleted. Use action=delete.",
       []) ∧
    executeRC rcEnvTriv "Client Script" "CS-1" "delete" =
      (rerrSugg "Script is still enabled. Disable it first before deleting."
        "Use action=disable first, verify nothing breaks, then delete.", []) :=
  ⟨(rollback_refusals rcEnvTriv).1 "PS-1" docTriv (by decide) rfl rfl rfl,
   (rollback_refusals rcEnvTriv).2 "Client Script" "CS-1" docTriv (Or.inl rfl)
     (by decide) rfl rfl rfl (by decide)⟩

end RollbackChanges

/-- C5 counterexample: `BuildBlueprint` is one of the nine tool classes the
repository defines, but its path does not appear in the hooks-declared
`assistant_tools` registration list (which has only seven entries); the
same holds for `VerifyBuild`. -/
theorem nine_tools_hooks_counterexample :
    ("niv_tools.tools.build_blueprint.BuildBlueprint" ∈ toolClassesDefined) ∧
    ("niv_tools.tools.build_blueprint.BuildBlueprint" ∉ Hooks.assistant_tools) ∧
    ("niv_tools.tools.verify_build.VerifyBuild" ∈ toolClassesDefined) ∧
    ("niv_tools.tools.verify_build.VerifyBuild" ∉ Hooks.assistant_tools) ∧
    toolClassesDefined.length = 9 ∧ Hooks.assistant_tools.length = 7 := by
  decide

/-- C5 (amended): the repository defines exactly nine tool classes, of which
exactly seven are hooks-registered; `BuildBlueprint` and `VerifyBuild` are
missing from `assistant_tools` and appear only in `install.TOOL_PATHS`,
which lists all nine. -/
theorem nine_tools_hooks_registration :
    toolClassesDefined.length = 9 ∧
    Hooks.assistant_tools.length = 7 ∧
    (Hooks.assistant_tools.all fun p => toolClassesDefined.contains p) = true ∧
    toolClassesDefined.filter (fun p => !(Hooks.assistant_tools.contains p)) =
      [ "niv_tools.tools.build_blueprint.BuildBlueprint"
      , "niv_tools.tools.verify_build.VerifyBuild" ] ∧
    (Install.TOOL_PATHS.all fun p => toolClassesDefined.contains p) = true ∧
    (toolClassesDefined.all fun p => Install.TOOL_PATHS.contains p) = true := by
  decide

/-- `_get_dummy_value` on a `Select` field returns the first non-blank
stripped option line (or `""`). -/
theorem getDummyValue_select (env : TestCreatedItem.TCEnv) (opts : String) :
    TestCreatedItem.getDummyValue env ⟨"Select", opts⟩ =
      some (.vstr (TestCreatedItem.firstSelectOption opts)) := by
  have h : TestCreatedItem.getDummyValue env ⟨"Select", opts⟩ =
      (match ((pySplitChar '\x0a' opts).map pyStrip).filter (fun o => o ≠ "") with
       | o :: _ => some (.vstr o)
       | [] => some (.vstr "")) := rfl
  rw [h]
  unfold TestCreatedItem.firstSelectOption
  cases hm : ((pySplitChar '\x0a' opts).map pyStrip).filter (fun o => o ≠ "") with
  | nil => simp [hm]
  | cons o rest => simp [hm]

/-- C6 counterexample: two `Select` fields with the same fieldtype but
different options get different dummy values, so `_get_dummy_value` is not
determined solely by the fieldtype string (the `Select` branch reads
`field.options`, the `Link` branch even queries the database). -/
theorem dummy_suggest_counterexample :
    (TestCreatedItem.DummyField.mk "Select" "A\nB").fieldtype =
      (TestCreatedItem.DummyField.mk "Select" "X\nY").fieldtype ∧
    TestCreatedItem.getDummyValue TestCreatedItem.tcEnvTriv ⟨"Select", "A\nB"⟩ =
      some (.vstr "A") ∧
    TestCreatedItem.getDummyValue TestCreatedItem.tcEnvTriv ⟨"Select", "X\nY"⟩ =
      some (.vstr "X") ∧
    TestCreatedItem.getDummyValue TestCreatedItem.tcEnvTriv ⟨"Select", "A\nB"⟩ ≠
      TestCreatedItem.getDummyValue TestCreatedItem.tcEnvTriv ⟨"Select", "X\nY"⟩ :=
  ⟨rfl, rfl, rfl, by decide⟩

set_option maxHeartbeats 2000000 in
/-- C6 (amended): `_get_dummy_value` is a static table keyed on the
fieldtype except for `Select` (first non-blank option from the field's own
options) and `Link` (first record of the linked DocType from the
database): the listed fixed values hold for every environment and every
options value, every unhandled fieldtype yields `None`, and `_suggest_fix`
always returns one of its twelve fixed suggestion strings. -/
theorem dummy_suggest_static_tables :
    (∀ (env : TestCreatedItem.TCEnv) (opts : String),
      TestCreatedItem.getDummyValue env ⟨"Data", opts⟩ = some (.vstr "__test__") ∧
      TestCreatedItem.getDummyValue env ⟨"Small Text", opts⟩ = some (.vstr "__test__") ∧
      TestCreatedItem.getDummyValue env ⟨"Text", opts⟩ = some (.vstr "__test__") ∧
      TestCreatedItem.getDummyValue env ⟨"Long Text", opts⟩ = some (.vstr "__test__") ∧
      TestCreatedItem.getDummyValue env ⟨"Text Editor", opts⟩ = some (.vstr "__test__") ∧
      TestCreatedItem.getDummyValue env ⟨"Int", opts⟩ = some (.vint 1) ∧
      TestCreatedItem.getDummyValue env ⟨"Float", opts⟩ = some (.vfloat 1) ∧
      TestCreatedItem.getDummyValue env ⟨"Currency", opts⟩ = some (.vfloat 1) ∧
      TestCreatedItem.getDummyValue env ⟨"Percent", opts⟩ = some (.vfloat 1) ∧
      TestCreatedItem.getDummyValue env ⟨"Check", opts⟩ = some (.vint 0) ∧
      TestCreatedItem.getDummyValue env ⟨"Date", opts⟩ = some (.vstr "2025-01-01") ∧
      TestCreatedItem.getDummyValue env ⟨"Datetime", opts⟩ =
        some (.vstr "2025-01-01 00:00:00") ∧
      TestCreatedItem.getDummyValue env ⟨"Time", opts⟩ = some (.vstr "00:00:00") ∧
      TestCreatedItem.getDummyValue env ⟨"Select", opts⟩ =
        some (.vstr (TestCreatedItem.firstSelectOption opts))) ∧
    (∀ (env : TestCreatedItem.TCEnv) (f : TestCreatedItem.DummyField),
      f.fieldtype ∉ TestCreatedItem.handledFieldtypes →
        TestCreatedItem.getDummyValue env f = none) ∧
    (∀ line, MonitorErrors.suggestFix line ∈ MonitorErrors.suggestionTable) := by
  refine ⟨?_, ?_, ?_⟩
  · intro env opts
    exact ⟨rfl, rfl, rfl, rfl, rfl, rfl, rfl, rfl, rfl, rfl, rfl, rfl, rfl,
      getDummyValue_select env opts⟩
  · intro env f hf
    simp only [TestCreatedItem.handledFieldtypes, List.mem_cons, List.mem_singleton,
      not_or] at hf
    obtain ⟨h1, h2, h3, h4, h5, h6, h7, h8, h9, h10, h11, h12, h13, h14, h15⟩ := hf
    unfold TestCreatedItem.getDummyValue
    simp [h1, h2, h3, h4, h5, h6, h7, h8, h9, h10, h11, h12, h13, h14, h15]
  · intro line
    simp only [MonitorErrors.suggestFix]
    repeat' split
    all_goals decide

theorem dummy_suggest_static_tables_witness :
    TestCreatedItem.getDummyValue TestCreatedItem.tcEnvTriv ⟨"Geolocation", ""⟩ =
      none :=
  dummy_suggest_static_tables.2.1 TestCreatedItem.tcEnvTriv ⟨"Geolocation", ""⟩
    (by decide)

end NivTools
